import Mathlib

/-!
Verification of the C-linkage shim `src/glslang-sys/src/glue.cpp` of
BlockProject3D/sdk.shaderc.

The shim exposes the glslang front end's object model (TShader, TProgram)
as free C functions over opaque handles.  We embed the boundary as a
state-transition system: a process state holds the live TShader and
TProgram objects keyed by handle (the opaque pointer), and each exported
C function becomes a Lean function from the process state and its C
arguments to an optional (new state, output) pair.  `none` models
undefined behaviour (dangling handle, null out-parameter dereference);
the shim never guards against those, per the spec's misuse taxonomy.

The wrapped compiler (glslang itself) is not part of the reviewed
sources; its object methods are modelled from the spec where the spec
pins their behaviour down, and delegated to an abstract `Oracle` of
uninterpreted functions where the outcome depends on compiler internals
(parse results, link results, reflection contents).  Pointers crossing
the boundary (`const char *`, `TBuiltInResource *`, IR handles) are
uninterpreted address tokens (`Ptr := Nat`, 0 = null), since the shim
never inspects what they point at.
-/

/-- Address token for a raw pointer crossing the boundary; 0 is null. -/
abbrev Ptr := Nat

/-- Bitmask type `EShMessages`, passed through opaquely by the shim. -/
abbrev EShMessages := Nat

/-- Pipeline stages, `EShLanguage` from ShaderLang.h. -/
inductive EShLanguage where
  | vertex | tessControl | tessEvaluation | geometry | fragment | compute
  | rayGen | intersect | anyHit | closestHit | miss | callable | task | mesh
deriving DecidableEq, Repr

/-- Profiles, `EProfile` from ShaderLang.h. -/
inductive EProfile where
  | badProfile | noProfile | coreProfile | compatibilityProfile | esProfile
deriving DecidableEq, Repr

/-- Resource categories for binding shifts, `TResourceType`. -/
inductive TResourceType where
  | sampler | texture | image | ubo | ssbo | uav
deriving DecidableEq, Repr

/-- `EShTextureSamplerTransformMode`. -/
inductive EShTextureSamplerTransformMode where
  | keep | upgradeTextureRemoveSampler
deriving DecidableEq, Repr

/-- Block storage classes, `TBlockStorageClass`. -/
inductive TBlockStorageClass where
  | uniform | storageBuffer | pushConstant | bsNone
deriving DecidableEq, Repr

/-- Source dialects, `EShSource` (None / GLSL / HLSL). -/
inductive EShSource where
  | srcNone | srcGlsl | srcHlsl
deriving DecidableEq, Repr

/-- Client APIs, `EShClient` (None / Vulkan / OpenGL). -/
inductive EShClient where
  | clientNone | clientVulkan | clientOpenGL
deriving DecidableEq, Repr

/-- Target intermediate languages, `EShTargetLanguage` (None / SPIR-V). -/
inductive EShTargetLanguage where
  | targetNone | targetSpv
deriving DecidableEq, Repr

/-- The structured version returned by `get_version` / `glslang::GetVersion`:
major, minor, patch and a flavor string (a `const char *`, modelled as an
address token). -/
structure Version where
  major : Int
  minor : Int
  patch : Int
  flavor : Ptr
deriving DecidableEq, Repr

/-- Modelled from the spec: the state of one wrapped `glslang::TShader`
object (a CompilationUnit).  The fields are exactly what the
configuration setters of the boundary store, plus the parse-derived
state (logs and the intermediate-representation handle).  glslang's
implementation is not among the reviewed sources. -/
structure TShader where
  stage : EShLanguage
  strings : Ptr := 0
  lengths : Ptr := 0
  stringNames : Ptr := 0
  numStrings : Int := 0
  preamble : Ptr := 0
  entryPoint : Ptr := 0
  sourceEntryPoint : Ptr := 0
  uniqueId : Nat := 0
  shiftBinding : List (TResourceType × Nat) := []
  shiftBindingForSet : List (TResourceType × Nat × Nat) := []
  autoMapBindings : Bool := false
  autoMapLocations : Bool := false
  uniformLocationOverrides : List (Ptr × Int) := []
  uniformLocationBase : Int := 0
  invertY : Bool := false
  noStorageFormat : Bool := false
  nanMinMaxClamp : Bool := false
  texSampTransMode : EShTextureSamplerTransformMode := .keep
  blockStorageOverrides : List (Ptr × TBlockStorageClass) := []
  globalUniformBlockName : Ptr := 0
  atomicCounterBlockName : Ptr := 0
  globalUniformSet : Nat := 0
  globalUniformBinding : Nat := 0
  atomicCounterBlockSet : Nat := 0
  atomicCounterBlockBinding : Nat := 0
  envInputSource : EShSource := .srcNone
  envInputStage : EShLanguage := .vertex
  envInputClient : EShClient := .clientNone
  envInputVersion : Int := 0
  envClient : EShClient := .clientNone
  envClientVersion : Nat := 0
  envTargetLang : EShTargetLanguage := .targetNone
  envTargetVersion : Nat := 0
  vulkanRulesRelaxed : Bool := false
  hlslFunctionality1 : Bool := false
  infoLog : Ptr := 0
  debugLog : Ptr := 0
  intermediate : Ptr := 0
deriving DecidableEq, Repr

/-- Modelled from the spec: the state of one wrapped `glslang::TProgram`
object (a LinkUnit): the attached shader handles (non-owning), the link
result, the per-stage linked intermediates, logs, and the reflection
snapshot token once `buildReflection` succeeds. -/
structure TProgram where
  shaders : List Ptr := []
  linked : Bool := false
  intermediates : List (EShLanguage × Ptr) := []
  infoLog : Ptr := 0
  debugLog : Ptr := 0
  reflection : Option Ptr := none
deriving DecidableEq, Repr

/-- Outcome of one parse call of the wrapped compiler: success flag,
the produced intermediate-representation handle, and the two logs
(populated regardless of outcome). -/
structure ParseOutcome where
  ok : Bool
  ir : Ptr
  infoLog : Ptr
  debugLog : Ptr
deriving DecidableEq, Repr

/-- Outcome of one link call of the wrapped compiler on a non-empty
shader collection: success flag, the per-stage linked intermediates,
and the two logs. -/
structure LinkOutcome where
  ok : Bool
  intermediates : List (EShLanguage × Ptr)
  infoLog : Ptr
  debugLog : Ptr
deriving DecidableEq, Repr

/-- Outcome of one buildReflection call: success flag and a token for
the built reflection table. -/
structure ReflOutcome where
  ok : Bool
  table : Ptr
deriving DecidableEq, Repr

/-- Modelled from the spec: the behaviour of the wrapped compiler
(glslang) that is compiler-defined and not reviewable from the shim:
parse/link/reflection outcomes, the reduced-arity parse overload's
default profile substitution, and the reflection-table query functions.
All fields are uninterpreted; theorems quantify over every oracle. -/
structure Oracle where
  initOk : Bool
  defaultProfile : EProfile
  defaultForce : Bool
  parse : TShader → Ptr → Int → EProfile → Bool → Bool → EShMessages → ParseOutcome
  link : List Ptr → EShMessages → LinkOutcome
  buildRefl : List (EShLanguage × Ptr) → Int → ReflOutcome
  numLiveUniformVariables : Ptr → Int
  numLiveUniformBlocks : Ptr → Int
  numLiveAttributes : Ptr → Int
  uniformIndex : Ptr → Ptr → Int
  uniformName : Ptr → Int → Ptr
  uniformBinding : Ptr → Int → Int
  uniformStages : Ptr → Int → Nat
  uniformBlockIndex : Ptr → Int → Int
  uniformType : Ptr → Int → Int
  uniformBufferOffset : Ptr → Int → Int
  uniformArraySize : Ptr → Int → Int
  uniformBlockName : Ptr → Int → Ptr
  uniformBlockSize : Ptr → Int → Int
  uniformBlockBinding : Ptr → Int → Int
  uniformBlockCounterIndex : Ptr → Int → Int
  attributeName : Ptr → Int → Ptr
  attributeType : Ptr → Int → Int
  pipeIOIndex : Ptr → Ptr → Bool → Int

/-- First value bound to a key in an association list. -/
def alistFind {κ α : Type} [DecidableEq κ] : List (κ × α) → κ → Option α
  | [], _ => none
  | (k, v) :: rest, key => if k = key then some v else alistFind rest key

/-- Replace the value bound to a key in an association list (first
occurrence), leaving the key set unchanged. -/
def alistSet {κ α : Type} [DecidableEq κ] : List (κ × α) → κ → α → List (κ × α)
  | [], _, _ => []
  | (k, v) :: rest, key, val =>
    if k = key then (k, val) :: rest else (k, v) :: alistSet rest key val

/-- Remove every binding of a key from an association list. -/
def alistErase {κ α : Type} [DecidableEq κ] : List (κ × α) → κ → List (κ × α)
  | [], _ => []
  | (k, v) :: rest, key =>
    if k = key then alistErase rest key else (k, v) :: alistErase rest key

/-- The process-wide state behind the boundary: the constants the
wrapped compiler reports (version, ESSL version string, Khronos tool
id), the process-initialization flag, the allocator for fresh object
addresses, and the live TShader / TProgram objects keyed by handle. -/
structure PState where
  version : Version
  esslVersionString : Ptr
  khronosToolId : Int
  initialized : Bool := false
  nextHandle : Nat := 1
  shaders : List (Ptr × TShader) := []
  programs : List (Ptr × TProgram) := []
deriving DecidableEq, Repr

/-- The value an exported C function hands back to its caller.  The
`exception` constructor exists only to state that the boundary never
produces it: no exception-like signal crosses the boundary. -/
inductive Output where
  | unit
  | bool (b : Bool)
  | int (i : Int)
  | ptr (p : Ptr)
  | version (v : Version)
  | stage (s : EShLanguage)
  | mask (m : Nat)
  | outStrings (s : Ptr) (n : Int)
  | exception
deriving DecidableEq, Repr

/-- Modelled from the spec: `TShader::setStrings` — plain-string form;
the three source forms are mutually exclusive per call and the last
call wins, so the lengths and names arrays are cleared. -/
def TShader.setStrings (sh : TShader) (s : Ptr) (n : Int) : TShader :=
  { sh with strings := s, lengths := 0, stringNames := 0, numStrings := n }

/-- Modelled from the spec: `TShader::setStringsWithLengths`; clears the
per-fragment names from any previous call. -/
def TShader.setStringsWithLengths (sh : TShader) (s l : Ptr) (n : Int) : TShader :=
  { sh with strings := s, lengths := l, stringNames := 0, numStrings := n }

/-- Modelled from the spec: `TShader::setStringsWithLengthsAndNames`. -/
def TShader.setStringsWithLengthsAndNames (sh : TShader) (s l names : Ptr) (n : Int) : TShader :=
  { sh with strings := s, lengths := l, stringNames := names, numStrings := n }

/-- Modelled from the spec: `TShader::setPreamble`. -/
def TShader.setPreamble (sh : TShader) (s : Ptr) : TShader :=
  { sh with preamble := s }

/-- Modelled from the spec: `TShader::setEntryPoint`. -/
def TShader.setEntryPoint (sh : TShader) (entryPoint : Ptr) : TShader :=
  { sh with entryPoint := entryPoint }

/-- Modelled from the spec: `TShader::setSourceEntryPoint`. -/
def TShader.setSourceEntryPoint (sh : TShader) (name : Ptr) : TShader :=
  { sh with sourceEntryPoint := name }

/-- Modelled from the spec: `TShader::setUniqueId`. -/
def TShader.setUniqueId (sh : TShader) (id : Nat) : TShader :=
  { sh with uniqueId := id }

/-- Modelled from the spec: `TShader::setShiftBinding` — per-resource
base offset for automatically assigned bindings. -/
def TShader.setShiftBinding (sh : TShader) (res : TResourceType) (base : Nat) : TShader :=
  { sh with shiftBinding := (res, base) :: sh.shiftBinding }

/-- Modelled from the spec: `TShader::setShiftBindingForSet` — the same,
scoped to one descriptor set. -/
def TShader.setShiftBindingForSet (sh : TShader) (res : TResourceType) (base set : Nat) : TShader :=
  { sh with shiftBindingForSet := (res, base, set) :: sh.shiftBindingForSet }

/-- Modelled from the spec: `TShader::setAutoMapBindings`. -/
def TShader.setAutoMapBindings (sh : TShader) (map : Bool) : TShader :=
  { sh with autoMapBindings := map }

/-- Modelled from the spec: `TShader::setAutoMapLocations`. -/
def TShader.setAutoMapLocations (sh : TShader) (map : Bool) : TShader :=
  { sh with autoMapLocations := map }

/-- Modelled from the spec: `TShader::addUniformLocationOverride` — a
name-to-location override consulted before auto-assignment. -/
def TShader.addUniformLocationOverride (sh : TShader) (name : Ptr) (loc : Int) : TShader :=
  { sh with uniformLocationOverrides := (name, loc) :: sh.uniformLocationOverrides }

/-- Modelled from the spec: `TShader::setUniformLocationBase`. -/
def TShader.setUniformLocationBase (sh : TShader) (base : Int) : TShader :=
  { sh with uniformLocationBase := base }

/-- Modelled from the spec: `TShader::setInvertY`. -/
def TShader.setInvertY (sh : TShader) (invert : Bool) : TShader :=
  { sh with invertY := invert }

/-- Modelled from the spec: `TShader::setNoStorageFormat`. -/
def TShader.setNoStorageFormat (sh : TShader) (useUnknownFormat : Bool) : TShader :=
  { sh with noStorageFormat := useUnknownFormat }

/-- Modelled from the spec: `TShader::setNanMinMaxClamp`. -/
def TShader.setNanMinMaxClamp (sh : TShader) (clamp : Bool) : TShader :=
  { sh with nanMinMaxClamp := clamp }

/-- Modelled from the spec: `TShader::setTextureSamplerTransformMode`. -/
def TShader.setTextureSamplerTransformMode (sh : TShader) (mode : EShTextureSamplerTransformMode) : TShader :=
  { sh with texSampTransMode := mode }

/-- Modelled from the spec: `TShader::addBlockStorageOverride`. -/
def TShader.addBlockStorageOverride (sh : TShader) (nameStr : Ptr) (backing : TBlockStorageClass) : TShader :=
  { sh with blockStorageOverrides := (nameStr, backing) :: sh.blockStorageOverrides }

/-- Modelled from the spec: `TShader::setGlobalUniformBlockName`. -/
def TShader.setGlobalUniformBlockName (sh : TShader) (name : Ptr) : TShader :=
  { sh with globalUniformBlockName := name }

/-- Modelled from the spec: `TShader::setAtomicCounterBlockName`. -/
def TShader.setAtomicCounterBlockName (sh : TShader) (name : Ptr) : TShader :=
  { sh with atomicCounterBlockName := name }

/-- Modelled from the spec: `TShader::setGlobalUniformSet`. -/
def TShader.setGlobalUniformSet (sh : TShader) (set : Nat) : TShader :=
  { sh with globalUniformSet := set }

/-- Modelled from the spec: `TShader::setGlobalUniformBinding`. -/
def TShader.setGlobalUniformBinding (sh : TShader) (binding : Nat) : TShader :=
  { sh with globalUniformBinding := binding }

/-- Modelled from the spec: `TShader::setAtomicCounterBlockSet`. -/
def TShader.setAtomicCounterBlockSet (sh : TShader) (set : Nat) : TShader :=
  { sh with atomicCounterBlockSet := set }

/-- Modelled from the spec: `TShader::setAtomicCounterBlockBinding`. -/
def TShader.setAtomicCounterBlockBinding (sh : TShader) (binding : Nat) : TShader :=
  { sh with atomicCounterBlockBinding := binding }

/-- Modelled from the spec: `TShader::setEnvInput` — input dialect,
stage, client API and client version. -/
def TShader.setEnvInput (sh : TShader) (lang : EShSource) (envStage : EShLanguage)
    (client : EShClient) (v : Int) : TShader :=
  { sh with envInputSource := lang, envInputStage := envStage,
            envInputClient := client, envInputVersion := v }

/-- Modelled from the spec: `TShader::setEnvClient`. -/
def TShader.setEnvClient (sh : TShader) (client : EShClient) (v : Nat) : TShader :=
  { sh with envClient := client, envClientVersion := v }

/-- Modelled from the spec: `TShader::setEnvTarget`. -/
def TShader.setEnvTarget (sh : TShader) (lang : EShTargetLanguage) (v : Nat) : TShader :=
  { sh with envTargetLang := lang, envTargetVersion := v }

/-- Modelled from the spec: `TShader::setEnvInputVulkanRulesRelaxed`. -/
def TShader.setEnvInputVulkanRulesRelaxed (sh : TShader) : TShader :=
  { sh with vulkanRulesRelaxed := true }

/-- Modelled from the spec: `TShader::getStrings` — writes the current
fragment-array pointer and fragment count through its reference
parameters; returned here as a pair. -/
def TShader.getStrings (sh : TShader) : Ptr × Int :=
  (sh.strings, sh.numStrings)

/-- Modelled from the spec: the full-arity `TShader::parse` — outcome
delegated to the oracle; populates both logs regardless of outcome and
the intermediate representation on success. -/
def TShader.parse (O : Oracle) (sh : TShader) (res : Ptr) (defaultVersion : Int)
    (defaultProfile : EProfile) (forceDefaultVersionAndProfile forwardCompatible : Bool)
    (messages : EShMessages) : TShader × Bool :=
  let o := O.parse sh res defaultVersion defaultProfile forceDefaultVersionAndProfile
    forwardCompatible messages
  ({ sh with infoLog := o.infoLog, debugLog := o.debugLog,
             intermediate := if o.ok then o.ir else 0 }, o.ok)

/-- Modelled from the spec: the reduced-arity `TShader::parse` overload
— omits the default-profile argument and treats the profile as the
compiler default (the exact substitution is compiler-defined, hence the
oracle's `defaultProfile` and `defaultForce`). -/
def TShader.parseReduced (O : Oracle) (sh : TShader) (res : Ptr) (defaultVersion : Int)
    (forwardCompatible : Bool) (messages : EShMessages) : TShader × Bool :=
  TShader.parse O sh res defaultVersion O.defaultProfile O.defaultForce
    forwardCompatible messages

/-- Modelled from the spec: `TProgram::addShader` — stores a non-owning
reference to the shader handle. -/
def TProgram.addShader (p : TProgram) (shader : Ptr) : TProgram :=
  { p with shaders := p.shaders ++ [shader] }

/-- Modelled from the spec: `TProgram::link` — with zero attached
CompilationUnits it returns false (no entry stage); otherwise the
outcome is the oracle's; logs are populated regardless; the per-stage
linked intermediates are recorded on success. -/
def TProgram.link (O : Oracle) (p : TProgram) (messages : EShMessages) : TProgram × Bool :=
  let o := O.link p.shaders messages
  let ok := !p.shaders.isEmpty && o.ok
  ({ p with linked := ok, intermediates := if ok then o.intermediates else [],
            infoLog := o.infoLog, debugLog := o.debugLog }, ok)

/-- Modelled from the spec: `TProgram::getIntermediate` — the linked
intermediate representation for one stage, or null (0) if that stage
was not part of the link. -/
def TProgram.getIntermediate (p : TProgram) (stage : EShLanguage) : Ptr :=
  (alistFind p.intermediates stage).getD 0

/-- Modelled from the spec: `TProgram::buildReflection` — returns false
before a successful link; otherwise the outcome is the oracle's, and a
reflection-table token is stored on success. -/
def TProgram.buildReflection (O : Oracle) (p : TProgram) (opts : Int) : TProgram × Bool :=
  if p.linked then
    let r := O.buildRefl p.intermediates opts
    ({ p with reflection := if r.ok then some r.table else none }, r.ok)
  else
    (p, false)

/-- Look up an object by handle and run a mutating method on it,
writing the mutated object back; `none` when the handle is not a live
object of that kind (undefined behaviour at the C boundary). -/
def withShader (st : PState) (self : Ptr) (f : TShader → TShader × Output) :
    Option (PState × Output) :=
  match alistFind st.shaders self with
  | none => none
  | some shader =>
    let r := f shader
    some ({ st with shaders := alistSet st.shaders self r.1 }, r.2)

/-- Look up a shader by handle and run a read-only method on it. -/
def readShader (st : PState) (self : Ptr) (f : TShader → Output) :
    Option (PState × Output) :=
  match alistFind st.shaders self with
  | none => none
  | some shader => some (st, f shader)

/-- Look up a program by handle and run a mutating method on it. -/
def withProgram (st : PState) (self : Ptr) (f : TProgram → TProgram × Output) :
    Option (PState × Output) :=
  match alistFind st.programs self with
  | none => none
  | some prog =>
    let r := f prog
    some ({ st with programs := alistSet st.programs self r.1 }, r.2)

/-- Look up a program by handle and run a read-only method on it. -/
def readProgram (st : PState) (self : Ptr) (f : TProgram → Output) :
    Option (PState × Output) :=
  match alistFind st.programs self with
  | none => none
  | some prog => some (st, f prog)

/-- Look up a program by handle and run a read-only reflection query on
it; the query itself is undefined (`none`) when no reflection snapshot
has been built (misuse, per the spec's error taxonomy). -/
def readProgramRefl (st : PState) (self : Ptr) (f : Ptr → Output) :
    Option (PState × Output) :=
  match alistFind st.programs self with
  | none => none
  | some prog =>
    match prog.reflection with
    | none => none
    | some table => some (st, f table)

/-- glue.cpp `get_version`: forwards to `glslang::GetVersion()`, a
process constant. -/
def get_version (st : PState) : Option (PState × Output) :=
  some (st, .version st.version)

/-- glue.cpp `get_essl_version_string`: forwards to
`glslang::GetEsslVersionString()`. -/
def get_essl_version_string (st : PState) : Option (PState × Output) :=
  some (st, .ptr st.esslVersionString)

/-- glue.cpp `get_khronos_tool_id`: forwards to
`glslang::GetKhronosToolId()`. -/
def get_khronos_tool_id (st : PState) : Option (PState × Output) :=
  some (st, .int st.khronosToolId)

/-- glue.cpp `initialize_process`: forwards to
`glslang::InitializeProcess()`; the success flag is compiler-defined
(oracle). -/
def init_process (O : Oracle) (st : PState) : Option (PState × Output) :=
  some ({ st with initialized := O.initOk }, .bool O.initOk)

/-- glue.cpp `finalize_process`: forwards to
`glslang::FinalizeProcess()`. -/
def finalize_process (st : PState) : Option (PState × Output) :=
  some ({ st with initialized := false }, .unit)

/-- glue.cpp `TShader_create`: `new TShader(lang)` — allocates a fresh
object at a fresh address and returns it as the opaque handle. -/
def TShader_create (st : PState) (lang : EShLanguage) : Option (PState × Output) :=
  some ({ st with shaders := (st.nextHandle, { stage := lang }) :: st.shaders,
                  nextHandle := st.nextHandle + 1 }, .ptr st.nextHandle)

/-- glue.cpp `TShader_setStrings`: casts the handle and forwards. -/
def TShader_setStrings (st : PState) (self : Ptr) (s : Ptr) (n : Int) :
    Option (PState × Output) :=
  withShader st self (fun shader => (shader.setStrings s n, .unit))

/-- glue.cpp `TShader_setPreamble`. -/
def TShader_setPreamble (st : PState) (self : Ptr) (s : Ptr) :
    Option (PState × Output) :=
  withShader st self (fun shader => (shader.setPreamble s, .unit))

/-- glue.cpp `TShader_setStringsWithLengths`. -/
def TShader_setStringsWithLengths (st : PState) (self : Ptr) (s l : Ptr) (n : Int) :
    Option (PState × Output) :=
  withShader st self (fun shader => (shader.setStringsWithLengths s l n, .unit))

/-- glue.cpp `TShader_setStringsWithLengthsAndNames`. -/
def TShader_setStringsWithLengthsAndNames (st : PState) (self : Ptr) (s l names : Ptr)
    (n : Int) : Option (PState × Output) :=
  withShader st self (fun shader => (shader.setStringsWithLengthsAndNames s l names n, .unit))

/-- glue.cpp `TShader_setEntryPoint`. -/
def TShader_setEntryPoint (st : PState) (self : Ptr) (entryPoint : Ptr) :
    Option (PState × Output) :=
  withShader st self (fun shader => (shader.setEntryPoint entryPoint, .unit))

/-- glue.cpp `TShader_setSourceEntryPoint`. -/
def TShader_setSourceEntryPoint (st : PState) (self : Ptr) (name : Ptr) :
    Option (PState × Output) :=
  withShader st self (fun shader => (shader.setSourceEntryPoint name, .unit))

/-- glue.cpp `TShader_setUniqueId`. -/
def TShader_setUniqueId (st : PState) (self : Ptr) (id : Nat) :
    Option (PState × Output) :=
  withShader st self (fun shader => (shader.setUniqueId id, .unit))

/-- glue.cpp `TShader_setShiftBinding`. -/
def TShader_setShiftBinding (st : PState) (self : Ptr) (res : TResourceType) (base : Nat) :
    Option (PState × Output) :=
  withShader st self (fun shader => (shader.setShiftBinding res base, .unit))

/-- glue.cpp `TShader_setShiftBindingForSet`. -/
def TShader_setShiftBindingForSet (st : PState) (self : Ptr) (res : TResourceType)
    (base set : Nat) : Option (PState × Output) :=
  withShader st self (fun shader => (shader.setShiftBindingForSet res base set, .unit))

/-- glue.cpp `TShader_setAutoMapBindings`. -/
def TShader_setAutoMapBindings (st : PState) (self : Ptr) (map : Bool) :
    Option (PState × Output) :=
  withShader st self (fun shader => (shader.setAutoMapBindings map, .unit))

/-- glue.cpp `TShader_setAutoMapLocations`. -/
def TShader_setAutoMapLocations (st : PState) (self : Ptr) (map : Bool) :
    Option (PState × Output) :=
  withShader st self (fun shader => (shader.setAutoMapLocations map, .unit))

/-- glue.cpp `TShader_addUniformLocationOverride`. -/
def TShader_addUniformLocationOverride (st : PState) (self : Ptr) (name : Ptr) (loc : Int) :
    Option (PState × Output) :=
  withShader st self (fun shader => (shader.addUniformLocationOverride name loc, .unit))

/-- glue.cpp `TShader_setUniformLocationBase`. -/
def TShader_setUniformLocationBase (st : PState) (self : Ptr) (base : Int) :
    Option (PState × Output) :=
  withShader st self (fun shader => (shader.setUniformLocationBase base, .unit))

/-- glue.cpp `TShader_setInvertY`. -/
def TShader_setInvertY (st : PState) (self : Ptr) (invert : Bool) :
    Option (PState × Output) :=
  withShader st self (fun shader => (shader.setInvertY invert, .unit))

/-- glue.cpp `TShader_setNoStorageFormat`. -/
def TShader_setNoStorageFormat (st : PState) (self : Ptr) (useUnknownFormat : Bool) :
    Option (PState × Output) :=
  withShader st self (fun shader => (shader.setNoStorageFormat useUnknownFormat, .unit))

/-- glue.cpp `TShader_setNanMinMaxClamp`. -/
def TShader_setNanMinMaxClamp (st : PState) (self : Ptr) (clamp : Bool) :
    Option (PState × Output) :=
  withShader st self (fun shader => (shader.setNanMinMaxClamp clamp, .unit))

/-- glue.cpp `TShader_setTextureSamplerTransformMode`. -/
def TShader_setTextureSamplerTransformMode (st : PState) (self : Ptr)
    (mode : EShTextureSamplerTransformMode) : Option (PState × Output) :=
  withShader st self (fun shader => (shader.setTextureSamplerTransformMode mode, .unit))

/-- glue.cpp `TShader_addBlockStorageOverride`. -/
def TShader_addBlockStorageOverride (st : PState) (self : Ptr) (nameStr : Ptr)
    (backing : TBlockStorageClass) : Option (PState × Output) :=
  withShader st self (fun shader => (shader.addBlockStorageOverride nameStr backing, .unit))

/-- glue.cpp `TShader_setGlobalUniformBlockName`. -/
def TShader_setGlobalUniformBlockName (st : PState) (self : Ptr) (name : Ptr) :
    Option (PState × Output) :=
  withShader st self (fun shader => (shader.setGlobalUniformBlockName name, .unit))

/-- glue.cpp `TShader_setAtomicCounterBlockName`. -/
def TShader_setAtomicCounterBlockName (st : PState) (self : Ptr) (name : Ptr) :
    Option (PState × Output) :=
  withShader st self (fun shader => (shader.setAtomicCounterBlockName name, .unit))

/-- glue.cpp `TShader_setGlobalUniformSet`. -/
def TShader_setGlobalUniformSet (st : PState) (self : Ptr) (set : Nat) :
    Option (PState × Output) :=
  withShader st self (fun shader => (shader.setGlobalUniformSet set, .unit))

/-- glue.cpp `TShader_setGlobalUniformBinding`. -/
def TShader_setGlobalUniformBinding (st : PState) (self : Ptr) (binding : Nat) :
    Option (PState × Output) :=
  withShader st self (fun shader => (shader.setGlobalUniformBinding binding, .unit))

/-- glue.cpp `TShader_setAtomicCounterBlockSet`. -/
def TShader_setAtomicCounterBlockSet (st : PState) (self : Ptr) (set : Nat) :
    Option (PState × Output) :=
  withShader st self (fun shader => (shader.setAtomicCounterBlockSet set, .unit))

/-- glue.cpp `TShader_setAtomicCounterBlockBinding`. -/
def TShader_setAtomicCounterBlockBinding (st : PState) (self : Ptr) (binding : Nat) :
    Option (PState × Output) :=
  withShader st self (fun shader => (shader.setAtomicCounterBlockBinding binding, .unit))

/-- glue.cpp `TShader_setEnvInput`. -/
def TShader_setEnvInput (st : PState) (self : Ptr) (lang : EShSource)
    (envStage : EShLanguage) (client : EShClient) (v : Int) : Option (PState × Output) :=
  withShader st self (fun shader => (shader.setEnvInput lang envStage client v, .unit))

/-- glue.cpp `TShader_setEnvClient`. -/
def TShader_setEnvClient (st : PState) (self : Ptr) (client : EShClient) (v : Nat) :
    Option (PState × Output) :=
  withShader st self (fun shader => (shader.setEnvClient client v, .unit))

/-- glue.cpp `TShader_setEnvTarget`. -/
def TShader_setEnvTarget (st : PState) (self : Ptr) (lang : EShTargetLanguage) (v : Nat) :
    Option (PState × Output) :=
  withShader st self (fun shader => (shader.setEnvTarget lang v, .unit))

/-- glue.cpp `TShader_getStrings`: dereferences both caller-supplied
out-parameters (`*s`, `*n`) while forwarding — undefined when either is
null — and otherwise writes the current fragment-array pointer and
fragment count through them. -/
def TShader_getStrings (st : PState) (self : Ptr) (sOut nOut : Ptr) :
    Option (PState × Output) :=
  if sOut = 0 ∨ nOut = 0 then none
  else
    readShader st self (fun shader =>
      .outStrings (shader.getStrings).1 (shader.getStrings).2)

/-- glue.cpp `TShader_getEnvTargetHlslFunctionality1`. -/
def TShader_getEnvTargetHlslFunctionality1 (st : PState) (self : Ptr) :
    Option (PState × Output) :=
  readShader st self (fun shader => .bool shader.hlslFunctionality1)

/-- glue.cpp `TShader_setEnvInputVulkanRulesRelaxed`. -/
def TShader_setEnvInputVulkanRulesRelaxed (st : PState) (self : Ptr) :
    Option (PState × Output) :=
  withShader st self (fun shader => (shader.setEnvInputVulkanRulesRelaxed, .unit))

/-- glue.cpp `TShader_getEnvInputVulkanRulesRelaxed`. -/
def TShader_getEnvInputVulkanRulesRelaxed (st : PState) (self : Ptr) :
    Option (PState × Output) :=
  readShader st self (fun shader => .bool shader.vulkanRulesRelaxed)

/-- glue.cpp `TShader_parse`: forwards every argument to the full-arity
`TShader::parse` and returns its boolean unchanged. -/
def TShader_parse (O : Oracle) (st : PState) (self : Ptr) (res : Ptr)
    (defaultVersion : Int) (defaultProfile : EProfile)
    (forceDefaultVersionAndProfile forwardCompatible : Bool) (messages : EShMessages) :
    Option (PState × Output) :=
  withShader st self (fun shader =>
    let r := TShader.parse O shader res defaultVersion defaultProfile
      forceDefaultVersionAndProfile forwardCompatible messages
    (r.1, .bool r.2))

/-- glue.cpp `TShader_parse1`: forwards to the reduced-arity
`TShader::parse` overload (no default-profile argument). -/
def TShader_parse1 (O : Oracle) (st : PState) (self : Ptr) (res : Ptr)
    (defaultVersion : Int) (forwardCompatible : Bool) (messages : EShMessages) :
    Option (PState × Output) :=
  withShader st self (fun shader =>
    let r := TShader.parseReduced O shader res defaultVersion forwardCompatible messages
    (r.1, .bool r.2))

/-- glue.cpp `TShader_getInfoLog`. -/
def TShader_getInfoLog (st : PState) (self : Ptr) : Option (PState × Output) :=
  readShader st self (fun shader => .ptr shader.infoLog)

/-- glue.cpp `TShader_getInfoDebugLog`. -/
def TShader_getInfoDebugLog (st : PState) (self : Ptr) : Option (PState × Output) :=
  readShader st self (fun shader => .ptr shader.debugLog)

/-- glue.cpp `TShader_getStage`. -/
def TShader_getStage (st : PState) (self : Ptr) : Option (PState × Output) :=
  readShader st self (fun shader => .stage shader.stage)

/-- glue.cpp `TShader_getIntermediate`. -/
def TShader_getIntermediate (st : PState) (self : Ptr) : Option (PState × Output) :=
  readShader st self (fun shader => .ptr shader.intermediate)

/-- glue.cpp `TShader_destroy`: `delete shader` — removes the object
behind the handle. -/
def TShader_destroy (st : PState) (self : Ptr) : Option (PState × Output) :=
  match alistFind st.shaders self with
  | none => none
  | some _ => some ({ st with shaders := alistErase st.shaders self }, .unit)

/-- glue.cpp `TProgram_create`: `new TProgram()`. -/
def TProgram_create (st : PState) : Option (PState × Output) :=
  some ({ st with programs := (st.nextHandle, {}) :: st.programs,
                  nextHandle := st.nextHandle + 1 }, .ptr st.nextHandle)

/-- glue.cpp `TProgram_addShader`: forwards the shader handle; the
program stores a non-owning reference. -/
def TProgram_addShader (st : PState) (self : Ptr) (shader : Ptr) :
    Option (PState × Output) :=
  withProgram st self (fun prog => (prog.addShader shader, .unit))

/-- glue.cpp `TProgram_link`. -/
def TProgram_link (O : Oracle) (st : PState) (self : Ptr) (messages : EShMessages) :
    Option (PState × Output) :=
  withProgram st self (fun prog =>
    let r := TProgram.link O prog messages
    (r.1, .bool r.2))

/-- glue.cpp `TProgram_getInfoLog`. -/
def TProgram_getInfoLog (st : PState) (self : Ptr) : Option (PState × Output) :=
  readProgram st self (fun prog => .ptr prog.infoLog)

/-- glue.cpp `TProgram_getInfoDebugLog`. -/
def TProgram_getInfoDebugLog (st : PState) (self : Ptr) : Option (PState × Output) :=
  readProgram st self (fun prog => .ptr prog.debugLog)

/-- glue.cpp `TProgram_getIntermediate`. -/
def TProgram_getIntermediate (st : PState) (self : Ptr) (stage : EShLanguage) :
    Option (PState × Output) :=
  readProgram st self (fun prog => .ptr (prog.getIntermediate stage))

/-- glue.cpp `TProgram_buildReflection`. -/
def TProgram_buildReflection (O : Oracle) (st : PState) (self : Ptr) (opts : Int) :
    Option (PState × Output) :=
  withProgram st self (fun prog =>
    let r := TProgram.buildReflection O prog opts
    (r.1, .bool r.2))

/-- glue.cpp `TProgram_getPipeIOIndex`. -/
def TProgram_getPipeIOIndex (O : Oracle) (st : PState) (self : Ptr) (name : Ptr)
    (inOrOut : Bool) : Option (PState × Output) :=
  readProgramRefl st self (fun table => .int (O.pipeIOIndex table name inOrOut))

/-- glue.cpp `TProgram_getNumLiveUniformVariables`. -/
def TProgram_getNumLiveUniformVariables (O : Oracle) (st : PState) (self : Ptr) :
    Option (PState × Output) :=
  readProgramRefl st self (fun table => .int (O.numLiveUniformVariables table))

/-- glue.cpp `TProgram_getNumLiveUniformBlocks`. -/
def TProgram_getNumLiveUniformBlocks (O : Oracle) (st : PState) (self : Ptr) :
    Option (PState × Output) :=
  readProgramRefl st self (fun table => .int (O.numLiveUniformBlocks table))

/-- glue.cpp `TProgram_getNumLiveAttributes`. -/
def TProgram_getNumLiveAttributes (O : Oracle) (st : PState) (self : Ptr) :
    Option (PState × Output) :=
  readProgramRefl st self (fun table => .int (O.numLiveAttributes table))

/-- glue.cpp `TProgram_getUniformIndex`: by-name lookup; a negative
index is the absence sentinel (compiler-defined). -/
def TProgram_getUniformIndex (O : Oracle) (st : PState) (self : Ptr) (name : Ptr) :
    Option (PState × Output) :=
  readProgramRefl st self (fun table => .int (O.uniformIndex table name))

/-- glue.cpp `TProgram_getUniformName`. -/
def TProgram_getUniformName (O : Oracle) (st : PState) (self : Ptr) (index : Int) :
    Option (PState × Output) :=
  readProgramRefl st self (fun table => .ptr (O.uniformName table index))

/-- glue.cpp `TProgram_getUniformBinding`. -/
def TProgram_getUniformBinding (O : Oracle) (st : PState) (self : Ptr) (index : Int) :
    Option (PState × Output) :=
  readProgramRefl st self (fun table => .int (O.uniformBinding table index))

/-- glue.cpp `TProgram_getUniformStages`. -/
def TProgram_getUniformStages (O : Oracle) (st : PState) (self : Ptr) (index : Int) :
    Option (PState × Output) :=
  readProgramRefl st self (fun table => .mask (O.uniformStages table index))

/-- glue.cpp `TProgram_getUniformBlockIndex`. -/
def TProgram_getUniformBlockIndex (O : Oracle) (st : PState) (self : Ptr) (index : Int) :
    Option (PState × Output) :=
  readProgramRefl st self (fun table => .int (O.uniformBlockIndex table index))

/-- glue.cpp `TProgram_getUniformType`. -/
def TProgram_getUniformType (O : Oracle) (st : PState) (self : Ptr) (index : Int) :
    Option (PState × Output) :=
  readProgramRefl st self (fun table => .int (O.uniformType table index))

/-- glue.cpp `TProgram_getUniformBufferOffset`. -/
def TProgram_getUniformBufferOffset (O : Oracle) (st : PState) (self : Ptr) (index : Int) :
    Option (PState × Output) :=
  readProgramRefl st self (fun table => .int (O.uniformBufferOffset table index))

/-- glue.cpp `TProgram_getUniformArraySize`. -/
def TProgram_getUniformArraySize (O : Oracle) (st : PState) (self : Ptr) (index : Int) :
    Option (PState × Output) :=
  readProgramRefl st self (fun table => .int (O.uniformArraySize table index))

/-- glue.cpp `TProgram_getUniformBlockName`. -/
def TProgram_getUniformBlockName (O : Oracle) (st : PState) (self : Ptr) (index : Int) :
    Option (PState × Output) :=
  readProgramRefl st self (fun table => .ptr (O.uniformBlockName table index))

/-- glue.cpp `TProgram_getUniformBlockSize`. -/
def TProgram_getUniformBlockSize (O : Oracle) (st : PState) (self : Ptr) (index : Int) :
    Option (PState × Output) :=
  readProgramRefl st self (fun table => .int (O.uniformBlockSize table index))

/-- glue.cpp `TProgram_getUniformBlockBinding`. -/
def TProgram_getUniformBlockBinding (O : Oracle) (st : PState) (self : Ptr) (index : Int) :
    Option (PState × Output) :=
  readProgramRefl st self (fun table => .int (O.uniformBlockBinding table index))

/-- glue.cpp `TProgram_getUniformBlockCounterIndex`. -/
def TProgram_getUniformBlockCounterIndex (O : Oracle) (st : PState) (self : Ptr)
    (index : Int) : Option (PState × Output) :=
  readProgramRefl st self (fun table => .int (O.uniformBlockCounterIndex table index))

/-- glue.cpp `TProgram_getAttributeName`. -/
def TProgram_getAttributeName (O : Oracle) (st : PState) (self : Ptr) (index : Int) :
    Option (PState × Output) :=
  readProgramRefl st self (fun table => .ptr (O.attributeName table index))

/-- glue.cpp `TProgram_getAttributeType`. -/
def TProgram_getAttributeType (O : Oracle) (st : PState) (self : Ptr) (index : Int) :
    Option (PState × Output) :=
  readProgramRefl st self (fun table => .int (O.attributeType table index))

/-- glue.cpp `TProgram_dumpReflection`: diagnostic side effect only; no
value is returned and no boundary-visible state changes. -/
def TProgram_dumpReflection (st : PState) (self : Ptr) : Option (PState × Output) :=
  readProgram st self (fun _ => .unit)

/-- glue.cpp `TProgram_destroy`: `delete prog` — removes the program
object behind the handle; attached shaders are not owned and are left
untouched. -/
def TProgram_destroy (st : PState) (self : Ptr) : Option (PState × Output) :=
  match alistFind st.programs self with
  | none => none
  | some _ => some ({ st with programs := alistErase st.programs self }, .unit)

/-- One invocation of an exported C function of the boundary, with its
arguments (the constructor `init_process` stands for the C function
`initialize_process`). -/
inductive Op where
  | get_version
  | get_essl_version_string
  | get_khronos_tool_id
  | init_process
  | finalize_process
  | TShader_create (lang : EShLanguage)
  | TShader_setStrings (self s : Ptr) (n : Int)
  | TShader_setPreamble (self s : Ptr)
  | TShader_setStringsWithLengths (self s l : Ptr) (n : Int)
  | TShader_setStringsWithLengthsAndNames (self s l names : Ptr) (n : Int)
  | TShader_setEntryPoint (self entryPoint : Ptr)
  | TShader_setSourceEntryPoint (self name : Ptr)
  | TShader_setUniqueId (self : Ptr) (id : Nat)
  | TShader_setShiftBinding (self : Ptr) (res : TResourceType) (base : Nat)
  | TShader_setShiftBindingForSet (self : Ptr) (res : TResourceType) (base set : Nat)
  | TShader_setAutoMapBindings (self : Ptr) (map : Bool)
  | TShader_setAutoMapLocations (self : Ptr) (map : Bool)
  | TShader_addUniformLocationOverride (self name : Ptr) (loc : Int)
  | TShader_setUniformLocationBase (self : Ptr) (base : Int)
  | TShader_setInvertY (self : Ptr) (invert : Bool)
  | TShader_setNoStorageFormat (self : Ptr) (useUnknownFormat : Bool)
  | TShader_setNanMinMaxClamp (self : Ptr) (clamp : Bool)
  | TShader_setTextureSamplerTransformMode (self : Ptr) (mode : EShTextureSamplerTransformMode)
  | TShader_addBlockStorageOverride (self nameStr : Ptr) (backing : TBlockStorageClass)
  | TShader_setGlobalUniformBlockName (self name : Ptr)
  | TShader_setAtomicCounterBlockName (self name : Ptr)
  | TShader_setGlobalUniformSet (self : Ptr) (set : Nat)
  | TShader_setGlobalUniformBinding (self : Ptr) (binding : Nat)
  | TShader_setAtomicCounterBlockSet (self : Ptr) (set : Nat)
  | TShader_setAtomicCounterBlockBinding (self : Ptr) (binding : Nat)
  | TShader_setEnvInput (self : Ptr) (lang : EShSource) (envStage : EShLanguage) (client : EShClient) (v : Int)
  | TShader_setEnvClient (self : Ptr) (client : EShClient) (v : Nat)
  | TShader_setEnvTarget (self : Ptr) (lang : EShTargetLanguage) (v : Nat)
  | TShader_getStrings (self sOut nOut : Ptr)
  | TShader_getEnvTargetHlslFunctionality1 (self : Ptr)
  | TShader_setEnvInputVulkanRulesRelaxed (self : Ptr)
  | TShader_getEnvInputVulkanRulesRelaxed (self : Ptr)
  | TShader_parse (self res : Ptr) (defaultVersion : Int) (defaultProfile : EProfile)
      (forceDefaultVersionAndProfile forwardCompatible : Bool) (messages : EShMessages)
  | TShader_parse1 (self res : Ptr) (defaultVersion : Int) (forwardCompatible : Bool)
      (messages : EShMessages)
  | TShader_getInfoLog (self : Ptr)
  | TShader_getInfoDebugLog (self : Ptr)
  | TShader_getStage (self : Ptr)
  | TShader_getIntermediate (self : Ptr)
  | TShader_destroy (self : Ptr)
  | TProgram_create
  | TProgram_addShader (self shader : Ptr)
  | TProgram_link (self : Ptr) (messages : EShMessages)
  | TProgram_getInfoLog (self : Ptr)
  | TProgram_getInfoDebugLog (self : Ptr)
  | TProgram_getIntermediate (self : Ptr) (stage : EShLanguage)
  | TProgram_buildReflection (self : Ptr) (opts : Int)
  | TProgram_getPipeIOIndex (self name : Ptr) (inOrOut : Bool)
  | TProgram_getNumLiveUniformVariables (self : Ptr)
  | TProgram_getNumLiveUniformBlocks (self : Ptr)
  | TProgram_getNumLiveAttributes (self : Ptr)
  | TProgram_getUniformIndex (self name : Ptr)
  | TProgram_getUniformName (self : Ptr) (index : Int)
  | TProgram_getUniformBinding (self : Ptr) (index : Int)
  | TProgram_getUniformStages (self : Ptr) (index : Int)
  | TProgram_getUniformBlockIndex (self : Ptr) (index : Int)
  | TProgram_getUniformType (self : Ptr) (index : Int)
  | TProgram_getUniformBufferOffset (self : Ptr) (index : Int)
  | TProgram_getUniformArraySize (self : Ptr) (index : Int)
  | TProgram_getUniformBlockName (self : Ptr) (index : Int)
  | TProgram_getUniformBlockSize (self : Ptr) (index : Int)
  | TProgram_getUniformBlockBinding (self : Ptr) (index : Int)
  | TProgram_getUniformBlockCounterIndex (self : Ptr) (index : Int)
  | TProgram_getAttributeName (self : Ptr) (index : Int)
  | TProgram_getAttributeType (self : Ptr) (index : Int)
  | TProgram_dumpReflection (self : Ptr)
  | TProgram_destroy (self : Ptr)

/-- The boundary as translated from glue.cpp: dispatches one operation
to the exported C function embedding it. -/
def step (O : Oracle) (st : PState) : Op → Option (PState × Output)
  | .get_version => get_version st
  | .get_essl_version_string => get_essl_version_string st
  | .get_khronos_tool_id => get_khronos_tool_id st
  | .init_process => init_process O st
  | .finalize_process => finalize_process st
  | .TShader_create lang => TShader_create st lang
  | .TShader_setStrings self s n => TShader_setStrings st self s n
  | .TShader_setPreamble self s => TShader_setPreamble st self s
  | .TShader_setStringsWithLengths self s l n => TShader_setStringsWithLengths st self s l n
  | .TShader_setStringsWithLengthsAndNames self s l names n =>
      TShader_setStringsWithLengthsAndNames st self s l names n
  | .TShader_setEntryPoint self entryPoint => TShader_setEntryPoint st self entryPoint
  | .TShader_setSourceEntryPoint self name => TShader_setSourceEntryPoint st self name
  | .TShader_setUniqueId self id => TShader_setUniqueId st self id
  | .TShader_setShiftBinding self res base => TShader_setShiftBinding st self res base
  | .TShader_setShiftBindingForSet self res base set =>
      TShader_setShiftBindingForSet st self res base set
  | .TShader_setAutoMapBindings self map => TShader_setAutoMapBindings st self map
  | .TShader_setAutoMapLocations self map => TShader_setAutoMapLocations st self map
  | .TShader_addUniformLocationOverride self name loc =>
      TShader_addUniformLocationOverride st self name loc
  | .TShader_setUniformLocationBase self base => TShader_setUniformLocationBase st self base
  | .TShader_setInvertY self invert => TShader_setInvertY st self invert
  | .TShader_setNoStorageFormat self u => TShader_setNoStorageFormat st self u
  | .TShader_setNanMinMaxClamp self clamp => TShader_setNanMinMaxClamp st self clamp
  | .TShader_setTextureSamplerTransformMode self mode =>
      TShader_setTextureSamplerTransformMode st self mode
  | .TShader_addBlockStorageOverride self nameStr backing =>
      TShader_addBlockStorageOverride st self nameStr backing
  | .TShader_setGlobalUniformBlockName self name => TShader_setGlobalUniformBlockName st self name
  | .TShader_setAtomicCounterBlockName self name => TShader_setAtomicCounterBlockName st self name
  | .TShader_setGlobalUniformSet self set => TShader_setGlobalUniformSet st self set
  | .TShader_setGlobalUniformBinding self binding => TShader_setGlobalUniformBinding st self binding
  | .TShader_setAtomicCounterBlockSet self set => TShader_setAtomicCounterBlockSet st self set
  | .TShader_setAtomicCounterBlockBinding self binding =>
      TShader_setAtomicCounterBlockBinding st self binding
  | .TShader_setEnvInput self lang envStage client v =>
      TShader_setEnvInput st self lang envStage client v
  | .TShader_setEnvClient self client v => TShader_setEnvClient st self client v
  | .TShader_setEnvTarget self lang v => TShader_setEnvTarget st self lang v
  | .TShader_getStrings self sOut nOut => TShader_getStrings st self sOut nOut
  | .TShader_getEnvTargetHlslFunctionality1 self => TShader_getEnvTargetHlslFunctionality1 st self
  | .TShader_setEnvInputVulkanRulesRelaxed self => TShader_setEnvInputVulkanRulesRelaxed st self
  | .TShader_getEnvInputVulkanRulesRelaxed self => TShader_getEnvInputVulkanRulesRelaxed st self
  | .TShader_parse self res v p force fwd msgs => TShader_parse O st self res v p force fwd msgs
  | .TShader_parse1 self res v fwd msgs => TShader_parse1 O st self res v fwd msgs
  | .TShader_getInfoLog self => TShader_getInfoLog st self
  | .TShader_getInfoDebugLog self => TShader_getInfoDebugLog st self
  | .TShader_getStage self => TShader_getStage st self
  | .TShader_getIntermediate self => TShader_getIntermediate st self
  | .TShader_destroy self => TShader_destroy st self
  | .TProgram_create => TProgram_create st
  | .TProgram_addShader self shader => TProgram_addShader st self shader
  | .TProgram_link self messages => TProgram_link O st self messages
  | .TProgram_getInfoLog self => TProgram_getInfoLog st self
  | .TProgram_getInfoDebugLog self => TProgram_getInfoDebugLog st self
  | .TProgram_getIntermediate self stage => TProgram_getIntermediate st self stage
  | .TProgram_buildReflection self opts => TProgram_buildReflection O st self opts
  | .TProgram_getPipeIOIndex self name inOrOut => TProgram_getPipeIOIndex O st self name inOrOut
  | .TProgram_getNumLiveUniformVariables self => TProgram_getNumLiveUniformVariables O st self
  | .TProgram_getNumLiveUniformBlocks self => TProgram_getNumLiveUniformBlocks O st self
  | .TProgram_getNumLiveAttributes self => TProgram_getNumLiveAttributes O st self
  | .TProgram_getUniformIndex self name => TProgram_getUniformIndex O st self name
  | .TProgram_getUniformName self index => TProgram_getUniformName O st self index
  | .TProgram_getUniformBinding self index => TProgram_getUniformBinding O st self index
  | .TProgram_getUniformStages self index => TProgram_getUniformStages O st self index
  | .TProgram_getUniformBlockIndex self index => TProgram_getUniformBlockIndex O st self index
  | .TProgram_getUniformType self index => TProgram_getUniformType O st self index
  | .TProgram_getUniformBufferOffset self index => TProgram_getUniformBufferOffset O st self index
  | .TProgram_getUniformArraySize self index => TProgram_getUniformArraySize O st self index
  | .TProgram_getUniformBlockName self index => TProgram_getUniformBlockName O st self index
  | .TProgram_getUniformBlockSize self index => TProgram_getUniformBlockSize O st self index
  | .TProgram_getUniformBlockBinding self index => TProgram_getUniformBlockBinding O st self index
  | .TProgram_getUniformBlockCounterIndex self index =>
      TProgram_getUniformBlockCounterIndex O st self index
  | .TProgram_getAttributeName self index => TProgram_getAttributeName O st self index
  | .TProgram_getAttributeType self index => TProgram_getAttributeType O st self index
  | .TProgram_dumpReflection self => TProgram_dumpReflection st self
  | .TProgram_destroy self => TProgram_destroy st self

/-- The boundary as the spec words it: every call resolves the opaque
handle to the wrapped compiler object and forwards immediately to the
corresponding method, passing every argument unchanged and returning
the method's result unchanged — no added logic, state, or
transformation in the shim layer itself.  (Undefined behaviour — a
handle naming no live object, or a null out-parameter — stays
undefined.) -/
def forwardSpec (O : Oracle) (st : PState) : Op → Option (PState × Output)
  | .get_version => some (st, .version st.version)
  | .get_essl_version_string => some (st, .ptr st.esslVersionString)
  | .get_khronos_tool_id => some (st, .int st.khronosToolId)
  | .init_process => some ({ st with initialized := O.initOk }, .bool O.initOk)
  | .finalize_process => some ({ st with initialized := false }, .unit)
  | .TShader_create lang =>
      some ({ st with shaders := (st.nextHandle, { stage := lang }) :: st.shaders,
                      nextHandle := st.nextHandle + 1 }, .ptr st.nextHandle)
  | .TShader_setStrings self s n =>
      (alistFind st.shaders self).map (fun sh =>
        ({ st with shaders := alistSet st.shaders self (sh.setStrings s n) }, .unit))
  | .TShader_setPreamble self s =>
      (alistFind st.shaders self).map (fun sh =>
        ({ st with shaders := alistSet st.shaders self (sh.setPreamble s) }, .unit))
  | .TShader_setStringsWithLengths self s l n =>
      (alistFind st.shaders self).map (fun sh =>
        ({ st with shaders := alistSet st.shaders self (sh.setStringsWithLengths s l n) }, .unit))
  | .TShader_setStringsWithLengthsAndNames self s l names n =>
      (alistFind st.shaders self).map (fun sh =>
        ({ st with
           shaders := alistSet st.shaders self (sh.setStringsWithLengthsAndNames s l names n) },
         .unit))
  | .TShader_setEntryPoint self entryPoint =>
      (alistFind st.shaders self).map (fun sh =>
        ({ st with shaders := alistSet st.shaders self (sh.setEntryPoint entryPoint) }, .unit))
  | .TShader_setSourceEntryPoint self name =>
      (alistFind st.shaders self).map (fun sh =>
        ({ st with shaders := alistSet st.shaders self (sh.setSourceEntryPoint name) }, .unit))
  | .TShader_setUniqueId self id =>
      (alistFind st.shaders self).map (fun sh =>
        ({ st with shaders := alistSet st.shaders self (sh.setUniqueId id) }, .unit))
  | .TShader_setShiftBinding self res base =>
      (alistFind st.shaders self).map (fun sh =>
        ({ st with shaders := alistSet st.shaders self (sh.setShiftBinding res base) }, .unit))
  | .TShader_setShiftBindingForSet self res base set =>
      (alistFind st.shaders self).map (fun sh =>
        ({ st with shaders := alistSet st.shaders self (sh.setShiftBindingForSet res base set) },
         .unit))
  | .TShader_setAutoMapBindings self map =>
      (alistFind st.shaders self).map (fun sh =>
        ({ st with shaders := alistSet st.shaders self (sh.setAutoMapBindings map) }, .unit))
  | .TShader_setAutoMapLocations self map =>
      (alistFind st.shaders self).map (fun sh =>
        ({ st with shaders := alistSet st.shaders self (sh.setAutoMapLocations map) }, .unit))
  | .TShader_addUniformLocationOverride self name loc =>
      (alistFind st.shaders self).map (fun sh =>
        ({ st with shaders := alistSet st.shaders self (sh.addUniformLocationOverride name loc) },
         .unit))
  | .TShader_setUniformLocationBase self base =>
      (alistFind st.shaders self).map (fun sh =>
        ({ st with shaders := alistSet st.shaders self (sh.setUniformLocationBase base) }, .unit))
  | .TShader_setInvertY self invert =>
      (alistFind st.shaders self).map (fun sh =>
        ({ st with shaders := alistSet st.shaders self (sh.setInvertY invert) }, .unit))
  | .TShader_setNoStorageFormat self u =>
      (alistFind st.shaders self).map (fun sh =>
        ({ st with shaders := alistSet st.shaders self (sh.setNoStorageFormat u) }, .unit))
  | .TShader_setNanMinMaxClamp self clamp =>
      (alistFind st.shaders self).map (fun sh =>
        ({ st with shaders := alistSet st.shaders self (sh.setNanMinMaxClamp clamp) }, .unit))
  | .TShader_setTextureSamplerTransformMode self mode =>
      (alistFind st.shaders self).map (fun sh =>
        ({ st with shaders := alistSet st.shaders self (sh.setTextureSamplerTransformMode mode) },
         .unit))
  | .TShader_addBlockStorageOverride self nameStr backing =>
      (alistFind st.shaders self).map (fun sh =>
        ({ st with shaders := alistSet st.shaders self (sh.addBlockStorageOverride nameStr backing) },
         .unit))
  | .TShader_setGlobalUniformBlockName self name =>
      (alistFind st.shaders self).map (fun sh =>
        ({ st with shaders := alistSet st.shaders self (sh.setGlobalUniformBlockName name) }, .unit))
  | .TShader_setAtomicCounterBlockName self name =>
      (alistFind st.shaders self).map (fun sh =>
        ({ st with shaders := alistSet st.shaders self (sh.setAtomicCounterBlockName name) }, .unit))
  | .TShader_setGlobalUniformSet self set =>
      (alistFind st.shaders self).map (fun sh =>
        ({ st with shaders := alistSet st.shaders self (sh.setGlobalUniformSet set) }, .unit))
  | .TShader_setGlobalUniformBinding self binding =>
      (alistFind st.shaders self).map (fun sh =>
        ({ st with shaders := alistSet st.shaders self (sh.setGlobalUniformBinding binding) }, .unit))
  | .TShader_setAtomicCounterBlockSet self set =>
      (alistFind st.shaders self).map (fun sh =>
        ({ st with shaders := alistSet st.shaders self (sh.setAtomicCounterBlockSet set) }, .unit))
  | .TShader_setAtomicCounterBlockBinding self binding =>
      (alistFind st.shaders self).map (fun sh =>
        ({ st with shaders := alistSet st.shaders self (sh.setAtomicCounterBlockBinding binding) },
         .unit))
  | .TShader_setEnvInput self lang envStage client v =>
      (alistFind st.shaders self).map (fun sh =>
        ({ st with shaders := alistSet st.shaders self (sh.setEnvInput lang envStage client v) },
         .unit))
  | .TShader_setEnvClient self client v =>
      (alistFind st.shaders self).map (fun sh =>
        ({ st with shaders := alistSet st.shaders self (sh.setEnvClient client v) }, .unit))
  | .TShader_setEnvTarget self lang v =>
      (alistFind st.shaders self).map (fun sh =>
        ({ st with shaders := alistSet st.shaders self (sh.setEnvTarget lang v) }, .unit))
  | .TShader_getStrings self sOut nOut =>
      if sOut = 0 ∨ nOut = 0 then none
      else (alistFind st.shaders self).map (fun sh =>
        (st, .outStrings sh.getStrings.1 sh.getStrings.2))
  | .TShader_getEnvTargetHlslFunctionality1 self =>
      (alistFind st.shaders self).map (fun sh => (st, .bool sh.hlslFunctionality1))
  | .TShader_setEnvInputVulkanRulesRelaxed self =>
      (alistFind st.shaders self).map (fun sh =>
        ({ st with shaders := alistSet st.shaders self sh.setEnvInputVulkanRulesRelaxed }, .unit))
  | .TShader_getEnvInputVulkanRulesRelaxed self =>
      (alistFind st.shaders self).map (fun sh => (st, .bool sh.vulkanRulesRelaxed))
  | .TShader_parse self res v p force fwd msgs =>
      (alistFind st.shaders self).map (fun sh =>
        ({ st with
           shaders := alistSet st.shaders self (TShader.parse O sh res v p force fwd msgs).1 },
         .bool (TShader.parse O sh res v p force fwd msgs).2))
  | .TShader_parse1 self res v fwd msgs =>
      (alistFind st.shaders self).map (fun sh =>
        ({ st with
           shaders := alistSet st.shaders self (TShader.parseReduced O sh res v fwd msgs).1 },
         .bool (TShader.parseReduced O sh res v fwd msgs).2))
  | .TShader_getInfoLog self =>
      (alistFind st.shaders self).map (fun sh => (st, .ptr sh.infoLog))
  | .TShader_getInfoDebugLog self =>
      (alistFind st.shaders self).map (fun sh => (st, .ptr sh.debugLog))
  | .TShader_getStage self =>
      (alistFind st.shaders self).map (fun sh => (st, .stage sh.stage))
  | .TShader_getIntermediate self =>
      (alistFind st.shaders self).map (fun sh => (st, .ptr sh.intermediate))
  | .TShader_destroy self =>
      (alistFind st.shaders self).map (fun _ =>
        ({ st with shaders := alistErase st.shaders self }, .unit))
  | .TProgram_create =>
      some ({ st with programs := (st.nextHandle, {}) :: st.programs,
                      nextHandle := st.nextHandle + 1 }, .ptr st.nextHandle)
  | .TProgram_addShader self shader =>
      (alistFind st.programs self).map (fun p =>
        ({ st with programs := alistSet st.programs self (p.addShader shader) }, .unit))
  | .TProgram_link self messages =>
      (alistFind st.programs self).map (fun p =>
        ({ st with programs := alistSet st.programs self (TProgram.link O p messages).1 },
         .bool (TProgram.link O p messages).2))
  | .TProgram_getInfoLog self =>
      (alistFind st.programs self).map (fun p => (st, .ptr p.infoLog))
  | .TProgram_getInfoDebugLog self =>
      (alistFind st.programs self).map (fun p => (st, .ptr p.debugLog))
  | .TProgram_getIntermediate self stage =>
      (alistFind st.programs self).map (fun p => (st, .ptr (p.getIntermediate stage)))
  | .TProgram_buildReflection self opts =>
      (alistFind st.programs self).map (fun p =>
        ({ st with programs := alistSet st.programs self (TProgram.buildReflection O p opts).1 },
         .bool (TProgram.buildReflection O p opts).2))
  | .TProgram_getPipeIOIndex self name inOrOut =>
      (alistFind st.programs self).bind (fun p =>
        p.reflection.map (fun t => (st, .int (O.pipeIOIndex t name inOrOut))))
  | .TProgram_getNumLiveUniformVariables self =>
      (alistFind st.programs self).bind (fun p =>
        p.reflection.map (fun t => (st, .int (O.numLiveUniformVariables t))))
  | .TProgram_getNumLiveUniformBlocks self =>
      (alistFind st.programs self).bind (fun p =>
        p.reflection.map (fun t => (st, .int (O.numLiveUniformBlocks t))))
  | .TProgram_getNumLiveAttributes self =>
      (alistFind st.programs self).bind (fun p =>
        p.reflection.map (fun t => (st, .int (O.numLiveAttributes t))))
  | .TProgram_getUniformIndex self name =>
      (alistFind st.programs self).bind (fun p =>
        p.reflection.map (fun t => (st, .int (O.uniformIndex t name))))
  | .TProgram_getUniformName self index =>
      (alistFind st.programs self).bind (fun p =>
        p.reflection.map (fun t => (st, .ptr (O.uniformName t index))))
  | .TProgram_getUniformBinding self index =>
      (alistFind st.programs self).bind (fun p =>
        p.reflection.map (fun t => (st, .int (O.uniformBinding t index))))
  | .TProgram_getUniformStages self index =>
      (alistFind st.programs self).bind (fun p =>
        p.reflection.map (fun t => (st, .mask (O.uniformStages t index))))
  | .TProgram_getUniformBlockIndex self index =>
      (alistFind st.programs self).bind (fun p =>
        p.reflection.map (fun t => (st, .int (O.uniformBlockIndex t index))))
  | .TProgram_getUniformType self index =>
      (alistFind st.programs self).bind (fun p =>
        p.reflection.map (fun t => (st, .int (O.uniformType t index))))
  | .TProgram_getUniformBufferOffset self index =>
      (alistFind st.programs self).bind (fun p =>
        p.reflection.map (fun t => (st, .int (O.uniformBufferOffset t index))))
  | .TProgram_getUniformArraySize self index =>
      (alistFind st.programs self).bind (fun p =>
        p.reflection.map (fun t => (st, .int (O.uniformArraySize t index))))
  | .TProgram_getUniformBlockName self index =>
      (alistFind st.programs self).bind (fun p =>
        p.reflection.map (fun t => (st, .ptr (O.uniformBlockName t index))))
  | .TProgram_getUniformBlockSize self index =>
      (alistFind st.programs self).bind (fun p =>
        p.reflection.map (fun t => (st, .int (O.uniformBlockSize t index))))
  | .TProgram_getUniformBlockBinding self index =>
      (alistFind st.programs self).bind (fun p =>
        p.reflection.map (fun t => (st, .int (O.uniformBlockBinding t index))))
  | .TProgram_getUniformBlockCounterIndex self index =>
      (alistFind st.programs self).bind (fun p =>
        p.reflection.map (fun t => (st, .int (O.uniformBlockCounterIndex t index))))
  | .TProgram_getAttributeName self index =>
      (alistFind st.programs self).bind (fun p =>
        p.reflection.map (fun t => (st, .ptr (O.attributeName t index))))
  | .TProgram_getAttributeType self index =>
      (alistFind st.programs self).bind (fun p =>
        p.reflection.map (fun t => (st, .int (O.attributeType t index))))
  | .TProgram_dumpReflection self =>
      (alistFind st.programs self).map (fun _ => (st, .unit))
  | .TProgram_destroy self =>
      (alistFind st.programs self).map (fun _ =>
        ({ st with programs := alistErase st.programs self }, .unit))

theorem alistSet_keys {κ α : Type} [DecidableEq κ] :
    ∀ (l : List (κ × α)) (key : κ) (val : α),
      (alistSet l key val).map Prod.fst = l.map Prod.fst
  | [], _, _ => rfl
  | (k, v) :: rest, key, val => by
    unfold alistSet
    split
    · rfl
    · simp [alistSet_keys rest key val]

theorem alistErase_keys_sublist {κ α : Type} [DecidableEq κ] :
    ∀ (l : List (κ × α)) (key : κ),
      ((alistErase l key).map Prod.fst).Sublist (l.map Prod.fst)
  | [], _ => List.nil_sublist _
  | (k, v) :: rest, key => by
    unfold alistErase
    split
    · exact (alistErase_keys_sublist rest key).cons _
    · simp only [List.map_cons]
      exact (alistErase_keys_sublist rest key).cons₂ _

theorem alistFind_alistErase_self {κ α : Type} [DecidableEq κ] :
    ∀ (l : List (κ × α)) (key : κ), alistFind (alistErase l key) key = none
  | [], _ => rfl
  | (k, v) :: rest, key => by
    unfold alistErase
    split
    · exact alistFind_alistErase_self rest key
    · rename_i hk
      unfold alistFind
      rw [if_neg hk]
      exact alistFind_alistErase_self rest key

theorem withShader_inv {st : PState} {self : Ptr} {f : TShader → TShader × Output}
    {st' : PState} {out : Output} (h : withShader st self f = some (st', out)) :
    ∃ sh, alistFind st.shaders self = some sh ∧
      st' = { st with shaders := alistSet st.shaders self (f sh).1 } ∧ out = (f sh).2 := by
  unfold withShader at h
  split at h
  · exact absurd h (by simp)
  · rename_i sh hf
    simp only [Option.some.injEq, Prod.mk.injEq] at h
    exact ⟨sh, hf, h.1.symm, h.2.symm⟩

theorem readShader_inv {st : PState} {self : Ptr} {f : TShader → Output}
    {st' : PState} {out : Output} (h : readShader st self f = some (st', out)) :
    ∃ sh, alistFind st.shaders self = some sh ∧ st' = st ∧ out = f sh := by
  unfold readShader at h
  split at h
  · exact absurd h (by simp)
  · rename_i sh hf
    simp only [Option.some.injEq, Prod.mk.injEq] at h
    exact ⟨sh, hf, h.1.symm, h.2.symm⟩

theorem withProgram_inv {st : PState} {self : Ptr} {f : TProgram → TProgram × Output}
    {st' : PState} {out : Output} (h : withProgram st self f = some (st', out)) :
    ∃ p, alistFind st.programs self = some p ∧
      st' = { st with programs := alistSet st.programs self (f p).1 } ∧ out = (f p).2 := by
  unfold withProgram at h
  split at h
  · exact absurd h (by simp)
  · rename_i p hf
    simp only [Option.some.injEq, Prod.mk.injEq] at h
    exact ⟨p, hf, h.1.symm, h.2.symm⟩

theorem readProgram_inv {st : PState} {self : Ptr} {f : TProgram → Output}
    {st' : PState} {out : Output} (h : readProgram st self f = some (st', out)) :
    ∃ p, alistFind st.programs self = some p ∧ st' = st ∧ out = f p := by
  unfold readProgram at h
  split at h
  · exact absurd h (by simp)
  · rename_i p hf
    simp only [Option.some.injEq, Prod.mk.injEq] at h
    exact ⟨p, hf, h.1.symm, h.2.symm⟩

theorem readProgramRefl_inv {st : PState} {self : Ptr} {f : Ptr → Output}
    {st' : PState} {out : Output} (h : readProgramRefl st self f = some (st', out)) :
    ∃ p table, alistFind st.programs self = some p ∧ p.reflection = some table ∧
      st' = st ∧ out = f table := by
  unfold readProgramRefl at h
  split at h
  · exact absurd h (by simp)
  · rename_i p hf
    split at h
    · exact absurd h (by simp)
    · rename_i table ht
      simp only [Option.some.injEq, Prod.mk.injEq] at h
      exact ⟨p, table, hf, ht, h.1.symm, h.2.symm⟩

theorem tShader_destroy_inv {st : PState} {self : Ptr} {st' : PState} {out : Output}
    (h : TShader_destroy st self = some (st', out)) :
    (∃ sh, alistFind st.shaders self = some sh) ∧
      st' = { st with shaders := alistErase st.shaders self } ∧ out = .unit := by
  unfold TShader_destroy at h
  split at h
  · exact absurd h (by simp)
  · rename_i sh hf
    simp only [Option.some.injEq, Prod.mk.injEq] at h
    exact ⟨⟨sh, hf⟩, h.1.symm, h.2.symm⟩

theorem tProgram_destroy_inv {st : PState} {self : Ptr} {st' : PState} {out : Output}
    (h : TProgram_destroy st self = some (st', out)) :
    (∃ p, alistFind st.programs self = some p) ∧
      st' = { st with programs := alistErase st.programs self } ∧ out = .unit := by
  unfold TProgram_destroy at h
  split at h
  · exact absurd h (by simp)
  · rename_i p hf
    simp only [Option.some.injEq, Prod.mk.injEq] at h
    exact ⟨⟨p, hf⟩, h.1.symm, h.2.symm⟩

theorem pair_some_inv {α β : Type} {a : α} {b : β} {a' : α} {b' : β}
    (h : (some (a, b) : Option (α × β)) = some (a', b')) : a' = a ∧ b' = b := by
  injection h with h'
  injection h' with h1 h2
  exact ⟨h1.symm, h2.symm⟩

theorem ite_none_inv {α : Type} {c : Prop} [Decidable c] {x : Option α} {r : α}
    (h : (if c then none else x) = some r) : ¬c ∧ x = some r := by
  split at h
  · exact absurd h (by simp)
  · rename_i hc
    exact ⟨hc, h⟩

/-- Every handle alive in a process state (shader handles then program
handles). -/
def liveHandles (st : PState) : List Ptr :=
  st.shaders.map Prod.fst ++ st.programs.map Prod.fst

/-- The handle-allocation invariant: the allocator is past null, every
live handle is non-null and below the allocator, and no two live
objects share a handle. -/
def GoodState (st : PState) : Prop :=
  0 < st.nextHandle ∧ (liveHandles st).Nodup ∧
    ∀ h ∈ liveHandles st, 0 < h ∧ h < st.nextHandle

instance (st : PState) : Decidable (GoodState st) := by
  unfold GoodState; infer_instance

/-- Transport of the handle invariant along a state change that keeps
the live-handle list and the allocator. -/
theorem goodState_of_eq {st st' : PState} (hg : GoodState st)
    (h1 : liveHandles st' = liveHandles st) (h2 : st'.nextHandle = st.nextHandle) :
    GoodState st' := by
  unfold GoodState at *
  rw [h1, h2]
  exact hg

/-- The configuration setters of a CompilationUnit (spec section 4.1):
source in all three variants, preamble, entry points, unique id,
binding/location shifts and toggles, overrides, block configuration
and environment configuration. -/
def isConfigSetter : Op → Bool
  | .TShader_setStrings .. => true
  | .TShader_setPreamble .. => true
  | .TShader_setStringsWithLengths .. => true
  | .TShader_setStringsWithLengthsAndNames .. => true
  | .TShader_setEntryPoint .. => true
  | .TShader_setSourceEntryPoint .. => true
  | .TShader_setUniqueId .. => true
  | .TShader_setShiftBinding .. => true
  | .TShader_setShiftBindingForSet .. => true
  | .TShader_setAutoMapBindings .. => true
  | .TShader_setAutoMapLocations .. => true
  | .TShader_addUniformLocationOverride .. => true
  | .TShader_setUniformLocationBase .. => true
  | .TShader_setInvertY .. => true
  | .TShader_setNoStorageFormat .. => true
  | .TShader_setNanMinMaxClamp .. => true
  | .TShader_setTextureSamplerTransformMode .. => true
  | .TShader_addBlockStorageOverride .. => true
  | .TShader_setGlobalUniformBlockName .. => true
  | .TShader_setAtomicCounterBlockName .. => true
  | .TShader_setGlobalUniformSet .. => true
  | .TShader_setGlobalUniformBinding .. => true
  | .TShader_setAtomicCounterBlockSet .. => true
  | .TShader_setAtomicCounterBlockBinding .. => true
  | .TShader_setEnvInput .. => true
  | .TShader_setEnvClient .. => true
  | .TShader_setEnvTarget .. => true
  | .TShader_setEnvInputVulkanRulesRelaxed .. => true
  | _ => false

/-- The fallible boundary operations named by the spec's propagation
policy: process initialization, parse in both arities, link,
buildReflection, and by-name index lookup. -/
def isFallible : Op → Bool
  | .init_process => true
  | .TShader_parse .. => true
  | .TShader_parse1 .. => true
  | .TProgram_link .. => true
  | .TProgram_buildReflection .. => true
  | .TProgram_getUniformIndex .. => true
  | .TProgram_getPipeIOIndex .. => true
  | _ => false

/-- States reachable through defined boundary operations within one
process lifetime. -/
inductive Reaches (O : Oracle) : PState → PState → Prop where
  | refl (st : PState) : Reaches O st st
  | tail {st₁ st₂ st₃ : PState} (op : Op) (out : Output) :
      Reaches O st₁ st₂ → step O st₂ op = some (st₃, out) → Reaches O st₁ st₃

theorem frame_withShader {st : PState} {self : Ptr} {f : TShader → TShader × Output}
    {st' : PState} {out : Output} (h : withShader st self f = some (st', out)) :
    st'.version = st.version ∧ (GoodState st → GoodState st') := by
  obtain ⟨sh, -, hst, -⟩ := withShader_inv h
  subst hst
  exact ⟨rfl, fun hg => goodState_of_eq hg (by simp [liveHandles, alistSet_keys]) rfl⟩

theorem frame_readShader {st : PState} {self : Ptr} {f : TShader → Output}
    {st' : PState} {out : Output} (h : readShader st self f = some (st', out)) :
    st'.version = st.version ∧ (GoodState st → GoodState st') := by
  obtain ⟨sh, -, hst, -⟩ := readShader_inv h
  subst hst
  exact ⟨rfl, id⟩

theorem frame_withProgram {st : PState} {self : Ptr} {f : TProgram → TProgram × Output}
    {st' : PState} {out : Output} (h : withProgram st self f = some (st', out)) :
    st'.version = st.version ∧ (GoodState st → GoodState st') := by
  obtain ⟨p, -, hst, -⟩ := withProgram_inv h
  subst hst
  exact ⟨rfl, fun hg => goodState_of_eq hg (by simp [liveHandles, alistSet_keys]) rfl⟩

theorem frame_readProgram {st : PState} {self : Ptr} {f : TProgram → Output}
    {st' : PState} {out : Output} (h : readProgram st self f = some (st', out)) :
    st'.version = st.version ∧ (GoodState st → GoodState st') := by
  obtain ⟨p, -, hst, -⟩ := readProgram_inv h
  subst hst
  exact ⟨rfl, id⟩

theorem frame_readProgramRefl {st : PState} {self : Ptr} {f : Ptr → Output}
    {st' : PState} {out : Output} (h : readProgramRefl st self f = some (st', out)) :
    st'.version = st.version ∧ (GoodState st → GoodState st') := by
  obtain ⟨p, t, -, -, hst, -⟩ := readProgramRefl_inv h
  subst hst
  exact ⟨rfl, id⟩

theorem frame_getStrings {st : PState} {self sOut nOut : Ptr} {st' : PState} {out : Output}
    (h : TShader_getStrings st self sOut nOut = some (st', out)) :
    st'.version = st.version ∧ (GoodState st → GoodState st') := by
  unfold TShader_getStrings at h
  obtain ⟨-, h2⟩ := ite_none_inv h
  exact frame_readShader h2

theorem frame_tShader_destroy {st : PState} {self : Ptr} {st' : PState} {out : Output}
    (h : TShader_destroy st self = some (st', out)) :
    st'.version = st.version ∧ (GoodState st → GoodState st') := by
  obtain ⟨-, hst, -⟩ := tShader_destroy_inv h
  subst hst
  refine ⟨rfl, ?_⟩
  rintro ⟨h0, hnd, hb⟩
  have hsub : (liveHandles { st with shaders := alistErase st.shaders self }).Sublist
      (liveHandles st) := (alistErase_keys_sublist st.shaders self).append_right _
  exact ⟨h0, hnd.sublist hsub, fun x hx => hb x (hsub.subset hx)⟩

theorem frame_tProgram_destroy {st : PState} {self : Ptr} {st' : PState} {out : Output}
    (h : TProgram_destroy st self = some (st', out)) :
    st'.version = st.version ∧ (GoodState st → GoodState st') := by
  obtain ⟨-, hst, -⟩ := tProgram_destroy_inv h
  subst hst
  refine ⟨rfl, ?_⟩
  rintro ⟨h0, hnd, hb⟩
  have hsub : (liveHandles { st with programs := alistErase st.programs self }).Sublist
      (liveHandles st) := (alistErase_keys_sublist st.programs self).append_left _
  exact ⟨h0, hnd.sublist hsub, fun x hx => hb x (hsub.subset hx)⟩

theorem frame_tShader_create {st : PState} {lang : EShLanguage} {st' : PState} {out : Output}
    (h : TShader_create st lang = some (st', out)) :
    st'.version = st.version ∧ (GoodState st → GoodState st') := by
  obtain ⟨hst, -⟩ := pair_some_inv h
  subst hst
  refine ⟨rfl, ?_⟩
  rintro ⟨h0, hnd, hb⟩
  refine ⟨Nat.succ_pos _, ?_, ?_⟩
  · show (st.nextHandle :: liveHandles st).Nodup
    refine List.nodup_cons.mpr ⟨fun hmem => ?_, hnd⟩
    exact absurd (hb _ hmem).2 (lt_irrefl _)
  · show ∀ x ∈ st.nextHandle :: liveHandles st, 0 < x ∧ x < st.nextHandle + 1
    intro x hx
    rcases List.mem_cons.mp hx with hx | hx
    · subst hx
      exact ⟨h0, Nat.lt_succ_self _⟩
    · exact ⟨(hb x hx).1, Nat.lt_succ_of_lt (hb x hx).2⟩

theorem frame_tProgram_create {st : PState} {st' : PState} {out : Output}
    (h : TProgram_create st = some (st', out)) :
    st'.version = st.version ∧ (GoodState st → GoodState st') := by
  obtain ⟨hst, -⟩ := pair_some_inv h
  subst hst
  refine ⟨rfl, ?_⟩
  rintro ⟨h0, hnd, hb⟩
  refine ⟨Nat.succ_pos _, ?_, ?_⟩
  · show (st.shaders.map Prod.fst ++ st.nextHandle :: st.programs.map Prod.fst).Nodup
    refine List.nodup_middle.mpr (List.nodup_cons.mpr ⟨fun hmem => ?_, hnd⟩)
    exact absurd (hb _ hmem).2 (lt_irrefl _)
  · show ∀ x ∈ st.shaders.map Prod.fst ++ st.nextHandle :: st.programs.map Prod.fst,
      0 < x ∧ x < st.nextHandle + 1
    intro x hx
    rcases List.mem_append.mp hx with hx | hx
    · have : x ∈ liveHandles st := List.mem_append.mpr (Or.inl hx)
      exact ⟨(hb x this).1, Nat.lt_succ_of_lt (hb x this).2⟩
    · rcases List.mem_cons.mp hx with hx | hx
      · subst hx
        exact ⟨h0, Nat.lt_succ_self _⟩
      · have : x ∈ liveHandles st := List.mem_append.mpr (Or.inr hx)
        exact ⟨(hb x this).1, Nat.lt_succ_of_lt (hb x this).2⟩

/-- Every defined boundary operation preserves the process version
constant and the handle-allocation invariant. -/
theorem step_frame {O : Oracle} {st : PState} {op : Op} {st' : PState} {out : Output}
    (h : step O st op = some (st', out)) :
    st'.version = st.version ∧ (GoodState st → GoodState st') := by
  cases op <;>
    first
      | exact frame_getStrings h
      | exact frame_withShader h
      | exact frame_readShader h
      | exact frame_withProgram h
      | exact frame_readProgram h
      | exact frame_readProgramRefl h
      | exact frame_tShader_destroy h
      | exact frame_tProgram_destroy h
      | exact frame_tShader_create h
      | exact frame_tProgram_create h
      | (obtain ⟨hst, -⟩ := pair_some_inv h
         subst hst
         exact ⟨rfl, fun hg => goodState_of_eq hg rfl rfl⟩)

/-- Along any chain of defined boundary operations the process version
constant is unchanged. -/
theorem reaches_version {O : Oracle} {st₁ st₂ : PState} (h : Reaches O st₁ st₂) :
    st₂.version = st₁.version := by
  induction h with
  | refl => rfl
  | tail op out hr hs ih => exact (step_frame hs).1.trans ih

theorem withShader_eq_map (st : PState) (self : Ptr) (f : TShader → TShader × Output) :
    withShader st self f = (alistFind st.shaders self).map (fun sh =>
      ({ st with shaders := alistSet st.shaders self (f sh).1 }, (f sh).2)) := by
  unfold withShader
  cases alistFind st.shaders self <;> rfl

theorem readShader_eq_map (st : PState) (self : Ptr) (f : TShader → Output) :
    readShader st self f = (alistFind st.shaders self).map (fun sh => (st, f sh)) := by
  unfold readShader
  cases alistFind st.shaders self <;> rfl

theorem withProgram_eq_map (st : PState) (self : Ptr) (f : TProgram → TProgram × Output) :
    withProgram st self f = (alistFind st.programs self).map (fun p =>
      ({ st with programs := alistSet st.programs self (f p).1 }, (f p).2)) := by
  unfold withProgram
  cases alistFind st.programs self <;> rfl

theorem readProgram_eq_map (st : PState) (self : Ptr) (f : TProgram → Output) :
    readProgram st self f = (alistFind st.programs self).map (fun p => (st, f p)) := by
  unfold readProgram
  cases alistFind st.programs self <;> rfl

theorem readProgramRefl_eq_bind (st : PState) (self : Ptr) (f : Ptr → Output) :
    readProgramRefl st self f = (alistFind st.programs self).bind (fun p =>
      p.reflection.map (fun t => (st, f t))) := by
  unfold readProgramRefl
  cases alistFind st.programs self with
  | none => rfl
  | some p => cases hr : p.reflection <;> simp [hr]

theorem tShader_destroy_eq_map (st : PState) (self : Ptr) :
    TShader_destroy st self = (alistFind st.shaders self).map (fun _ =>
      ({ st with shaders := alistErase st.shaders self }, Output.unit)) := by
  unfold TShader_destroy
  cases alistFind st.shaders self <;> rfl

theorem tProgram_destroy_eq_map (st : PState) (self : Ptr) :
    TProgram_destroy st self = (alistFind st.programs self).map (fun _ =>
      ({ st with programs := alistErase st.programs self }, Output.unit)) := by
  unfold TProgram_destroy
  cases alistFind st.programs self <;> rfl

/-- A concrete oracle instance, used only to evaluate the boundary on
concrete inputs. -/
def oracleA : Oracle where
  initOk := true
  defaultProfile := .noProfile
  defaultForce := false
  parse := fun _ _ _ _ _ _ _ => { ok := true, ir := 7, infoLog := 8, debugLog := 9 }
  link := fun _ _ => { ok := true, intermediates := [(.vertex, 11)], infoLog := 12, debugLog := 13 }
  buildRefl := fun _ _ => { ok := true, table := 21 }
  numLiveUniformVariables := fun _ => 1
  numLiveUniformBlocks := fun _ => 0
  numLiveAttributes := fun _ => 1
  uniformIndex := fun _ _ => -1
  uniformName := fun _ _ => 0
  uniformBinding := fun _ _ => 0
  uniformStages := fun _ _ => 0
  uniformBlockIndex := fun _ _ => 0
  uniformType := fun _ _ => 0
  uniformBufferOffset := fun _ _ => 0
  uniformArraySize := fun _ _ => 0
  uniformBlockName := fun _ _ => 0
  uniformBlockSize := fun _ _ => 0
  uniformBlockBinding := fun _ _ => 0
  uniformBlockCounterIndex := fun _ _ => 0
  attributeName := fun _ _ => 0
  attributeType := fun _ _ => 0
  pipeIOIndex := fun _ _ _ => -1

/-- A fresh process state. -/
def pstate0 : PState :=
  { version := { major := 15, minor := 0, patch := 0, flavor := 3 },
    esslVersionString := 4, khronosToolId := 8 }

/-- A concrete configured shader object. -/
def sh1 : TShader := { stage := .vertex, strings := 5, numStrings := 2 }

/-- A concrete linked program object holding shader handle 1 with a
vertex-stage intermediate and a built reflection table. -/
def prog1 : TProgram :=
  { shaders := [1], linked := true, intermediates := [(.vertex, 11)], reflection := some 21 }

/-- A state with one live shader (handle 1) and one live linked
program (handle 2). -/
def pstate1 : PState :=
  { version := { major := 15, minor := 0, patch := 0, flavor := 3 },
    esslVersionString := 4, khronosToolId := 8,
    nextHandle := 3, shaders := [(1, sh1)], programs := [(2, prog1)] }

/-- A state whose live program (handle 2) has no attached shaders. -/
def pstate2 : PState :=
  { version := { major := 15, minor := 0, patch := 0, flavor := 3 },
    esslVersionString := 4, khronosToolId := 8,
    nextHandle := 3, shaders := [(1, sh1)], programs := [(2, {})] }

/-- The state after creating one vertex shader in `pstate0`. -/
def pstateC : PState :=
  { pstate0 with shaders := [(1, { stage := .vertex })], nextHandle := 2 }

/-- C1: every boundary operation forwards immediately to the
corresponding method of the wrapped compiler object named by the opaque
handle, passing every argument unchanged and returning the method's
result unchanged, with no added logic, state, or transformation in the
shim layer itself: for every wrapped-compiler behaviour (oracle), state
and operation, the shim transition `step` coincides with the direct
forwarding semantics `forwardSpec`. -/
theorem shim_forwards (O : Oracle) (st : PState) (op : Op) :
    step O st op = forwardSpec O st op := by
  cases op <;>
    simp only [step, forwardSpec, get_version, get_essl_version_string, get_khronos_tool_id,
      init_process, finalize_process, TShader_create, TShader_setStrings, TShader_setPreamble,
      TShader_setStringsWithLengths, TShader_setStringsWithLengthsAndNames, TShader_setEntryPoint,
      TShader_setSourceEntryPoint, TShader_setUniqueId, TShader_setShiftBinding,
      TShader_setShiftBindingForSet, TShader_setAutoMapBindings, TShader_setAutoMapLocations,
      TShader_addUniformLocationOverride, TShader_setUniformLocationBase, TShader_setInvertY,
      TShader_setNoStorageFormat, TShader_setNanMinMaxClamp, TShader_setTextureSamplerTransformMode,
      TShader_addBlockStorageOverride, TShader_setGlobalUniformBlockName,
      TShader_setAtomicCounterBlockName, TShader_setGlobalUniformSet,
      TShader_setGlobalUniformBinding, TShader_setAtomicCounterBlockSet,
      TShader_setAtomicCounterBlockBinding, TShader_setEnvInput, TShader_setEnvClient,
      TShader_setEnvTarget, TShader_getStrings, TShader_getEnvTargetHlslFunctionality1,
      TShader_setEnvInputVulkanRulesRelaxed, TShader_getEnvInputVulkanRulesRelaxed, TShader_parse,
      TShader_parse1, TShader_getInfoLog, TShader_getInfoDebugLog, TShader_getStage,
      TShader_getIntermediate, TProgram_create, TProgram_addShader, TProgram_link,
      TProgram_getInfoLog, TProgram_getInfoDebugLog, TProgram_getIntermediate,
      TProgram_buildReflection, TProgram_getPipeIOIndex, TProgram_getNumLiveUniformVariables,
      TProgram_getNumLiveUniformBlocks, TProgram_getNumLiveAttributes, TProgram_getUniformIndex,
      TProgram_getUniformName, TProgram_getUniformBinding, TProgram_getUniformStages,
      TProgram_getUniformBlockIndex, TProgram_getUniformType, TProgram_getUniformBufferOffset,
      TProgram_getUniformArraySize, TProgram_getUniformBlockName, TProgram_getUniformBlockSize,
      TProgram_getUniformBlockBinding, TProgram_getUniformBlockCounterIndex,
      TProgram_getAttributeName, TProgram_getAttributeType, TProgram_dumpReflection,
      withShader_eq_map, readShader_eq_map, withProgram_eq_map, readProgram_eq_map,
      readProgramRefl_eq_bind, tShader_destroy_eq_map, tProgram_destroy_eq_map]

/-- C2: the reduced-arity parse `TShader_parse1` behaves exactly like
the full-arity `TShader_parse` with the default-profile argument
omitted and the profile (and force flag) at the wrapped compiler's
default: for every shader handle, state and (resource-limits,
default-version, forward-compatible, messages) input, the two boundary
calls return the same result, because the shim forwards to the wrapped
compiler's reduced-arity parse overload on those arguments. -/
theorem tShader_parse1_eq_default (O : Oracle) (st : PState) (self res : Ptr)
    (defaultVersion : Int) (forwardCompatible : Bool) (messages : EShMessages) :
    TShader_parse1 O st self res defaultVersion forwardCompatible messages
      = TShader_parse O st self res defaultVersion O.defaultProfile O.defaultForce
          forwardCompatible messages := rfl

/-- C3: every defined boundary operation returns a plain value — never
an exception-like signal — and every fallible operation
(process initialization, parse in both arities, link, buildReflection,
by-name index lookup) reports its outcome through a boolean or a
sentinel integer return value. -/
theorem no_exception_across_boundary (O : Oracle) (st : PState) (op : Op)
    (st' : PState) (out : Output) (h : step O st op = some (st', out)) :
    out ≠ Output.exception ∧
      (isFallible op = true →
        (∃ b, out = Output.bool b) ∨ (∃ i, out = Output.int i)) := by
  cases op <;>
    first
      | (obtain ⟨-, h2⟩ := ite_none_inv h
         obtain ⟨sh, -, -, ho⟩ := readShader_inv h2
         subst ho
         exact ⟨by simp, by simp [isFallible]⟩)
      | (obtain ⟨sh, -, -, ho⟩ := withShader_inv h
         subst ho
         exact ⟨by simp, by simp [isFallible]⟩)
      | (obtain ⟨sh, -, -, ho⟩ := readShader_inv h
         subst ho
         exact ⟨by simp, by simp [isFallible]⟩)
      | (obtain ⟨p, -, -, ho⟩ := withProgram_inv h
         subst ho
         exact ⟨by simp, by simp [isFallible]⟩)
      | (obtain ⟨p, -, -, ho⟩ := readProgram_inv h
         subst ho
         exact ⟨by simp, by simp [isFallible]⟩)
      | (obtain ⟨p, t, -, -, -, ho⟩ := readProgramRefl_inv h
         subst ho
         exact ⟨by simp, by simp [isFallible]⟩)
      | (obtain ⟨-, -, ho⟩ := tShader_destroy_inv h
         subst ho
         exact ⟨by simp, by simp [isFallible]⟩)
      | (obtain ⟨-, -, ho⟩ := tProgram_destroy_inv h
         subst ho
         exact ⟨by simp, by simp [isFallible]⟩)
      | (obtain ⟨-, ho⟩ := pair_some_inv h
         subst ho
         exact ⟨by simp, by simp [isFallible]⟩)

/-- C3 witness at a concrete fallible input: initializing the process
in the fresh state returns a boolean, not an exception-like signal. -/
theorem no_exception_across_boundary_witness :
    Output.bool true ≠ Output.exception ∧
      (isFallible Op.init_process = true →
        (∃ b, Output.bool true = Output.bool b) ∨ (∃ i, Output.bool true = Output.int i)) :=
  no_exception_across_boundary oracleA pstate0 .init_process
    { pstate0 with initialized := true } (.bool true) rfl

/-- C4: every configuration setter of a CompilationUnit, on every
argument value, returns no result — its boundary output is the unit
output, with no error channel; configuration errors can only surface
later, through the boolean results of parse and link. -/
theorem config_setters_silent (O : Oracle) (st : PState) (op : Op) (st' : PState)
    (out : Output) (hset : isConfigSetter op = true)
    (h : step O st op = some (st', out)) : out = Output.unit := by
  cases op <;>
    first
      | exact Bool.noConfusion hset
      | (obtain ⟨sh, -, -, ho⟩ := withShader_inv h
         exact ho)

/-- C4 witness at a concrete input: the unique-id setter on a live
shader returns the unit output. -/
theorem config_setters_silent_witness :
    isConfigSetter (Op.TShader_setUniqueId 1 0) = true ∧ Output.unit = Output.unit :=
  ⟨rfl, config_setters_silent oracleA pstate1 (.TShader_setUniqueId 1 0) pstate1
    Output.unit rfl rfl⟩

/-- C5: destroying a LinkUnit releases only the program object: the
call succeeds with the unit output, the destroyed handle no longer
names a live program, the shader map is untouched, and in particular
every attached CompilationUnit is unchanged and still alive. -/
theorem tProgram_destroy_frame (st : PState) (self : Ptr) (p : TProgram)
    (h : alistFind st.programs self = some p) :
    TProgram_destroy st self
        = some ({ st with programs := alistErase st.programs self }, Output.unit)
      ∧ ({ st with programs := alistErase st.programs self } : PState).shaders = st.shaders
      ∧ alistFind (alistErase st.programs self) self = none
      ∧ ∀ u ∈ p.shaders,
          alistFind ({ st with programs := alistErase st.programs self } : PState).shaders u
            = alistFind st.shaders u := by
  refine ⟨?_, rfl, alistFind_alistErase_self _ _, fun u _ => rfl⟩
  rw [tProgram_destroy_eq_map, h]
  rfl

/-- C5 witness at a concrete input: destroying the linked program
(handle 2) of `pstate1` leaves its attached shader (handle 1) alive and
unchanged. -/
theorem tProgram_destroy_frame_witness :
    TProgram_destroy pstate1 2
        = some ({ pstate1 with programs := alistErase pstate1.programs 2 }, Output.unit)
      ∧ ({ pstate1 with programs := alistErase pstate1.programs 2 } : PState).shaders
          = pstate1.shaders
      ∧ alistFind (alistErase pstate1.programs 2) 2 = none
      ∧ ∀ u ∈ prog1.shaders,
          alistFind ({ pstate1 with programs := alistErase pstate1.programs 2 } : PState).shaders u
            = alistFind pstate1.shaders u :=
  tProgram_destroy_frame pstate1 2 prog1 rfl

/-- C6: get_version is deterministic and stable within one process
lifetime: at any two states reachable through defined boundary
operations from a common start, the boundary's get_version calls
return equal structured versions (equal as `Version` values, hence
field by field). -/
theorem get_version_stable (O : Oracle) (st₀ st₁ st₂ : PState) (r₁ r₂ : PState × Output)
    (h₁ : Reaches O st₀ st₁) (h₂ : Reaches O st₀ st₂)
    (e₁ : step O st₁ .get_version = some r₁) (e₂ : step O st₂ .get_version = some r₂) :
    r₁.2 = r₂.2 := by
  obtain ⟨-, ho1⟩ := pair_some_inv e₁
  obtain ⟨-, ho2⟩ := pair_some_inv e₂
  rw [ho1, ho2, reaches_version h₁, reaches_version h₂]

/-- C6 witness at concrete inputs: get_version before and after a
create operation returns the same version value. -/
theorem get_version_stable_witness :
    ((pstate0, Output.version pstate0.version) : PState × Output).2
      = ((pstateC, Output.version pstateC.version) : PState × Output).2 :=
  get_version_stable oracleA pstate0 pstate0 pstateC
    (pstate0, Output.version pstate0.version) (pstateC, Output.version pstateC.version)
    (.refl _) (.tail (.TShader_create .vertex) (.ptr 1) (.refl _) rfl) rfl rfl

/-- C7: on a linked LinkUnit, get-intermediate returns the linked
intermediate-representation handle of a stage that was part of the
successful link, and the null handle (0) for a stage that was not part
of the link. -/
theorem tProgram_getIntermediate_by_stage (st : PState) (self : Ptr) (p : TProgram)
    (stage : EShLanguage) (h : alistFind st.programs self = some p)
    (hl : p.linked = true) :
    (∀ ir, alistFind p.intermediates stage = some ir →
        TProgram_getIntermediate st self stage = some (st, Output.ptr ir)) ∧
      (alistFind p.intermediates stage = none →
        TProgram_getIntermediate st self stage = some (st, Output.ptr 0)) := by
  constructor
  · intro ir hir
    unfold TProgram_getIntermediate
    rw [readProgram_eq_map, h]
    simp [TProgram.getIntermediate, hir]
  · intro hnone
    unfold TProgram_getIntermediate
    rw [readProgram_eq_map, h]
    simp [TProgram.getIntermediate, hnone]

/-- C7 witness at concrete inputs: the linked program of `pstate1`
yields intermediate handle 11 for its vertex stage and the null handle
for the fragment stage, which was not part of the link. -/
theorem tProgram_getIntermediate_by_stage_witness :
    TProgram_getIntermediate pstate1 2 .vertex = some (pstate1, Output.ptr 11) ∧
      TProgram_getIntermediate pstate1 2 .fragment = some (pstate1, Output.ptr 0) :=
  ⟨(tProgram_getIntermediate_by_stage pstate1 2 prog1 .vertex rfl rfl).1 11 rfl,
   (tProgram_getIntermediate_by_stage pstate1 2 prog1 .fragment rfl rfl).2 rfl⟩

/-- C8: linking a LinkUnit with zero attached CompilationUnits returns
false (no entry stage), for every message-control flag value and every
wrapped-compiler behaviour. -/
theorem tProgram_link_empty (O : Oracle) (st : PState) (self : Ptr) (p : TProgram)
    (messages : EShMessages) (h : alistFind st.programs self = some p)
    (hempty : p.shaders = []) :
    ∃ st', TProgram_link O st self messages = some (st', Output.bool false) := by
  refine ⟨{ st with programs := alistSet st.programs self (TProgram.link O p messages).1 }, ?_⟩
  unfold TProgram_link
  rw [withProgram_eq_map, h]
  simp [TProgram.link, hempty]

/-- C8 witness at a concrete input: linking the empty program of
`pstate2` returns false. -/
theorem tProgram_link_empty_witness :
    ∃ st', TProgram_link oracleA pstate2 2 0 = some (st', Output.bool false) :=
  tProgram_link_empty oracleA pstate2 2 {} 0 rfl rfl

/-- C9: under the handle invariant, every defined boundary operation
preserves it (live handles stay pairwise distinct and non-null until
destroyed), and each create operation returns a non-null handle
distinct from every handle alive at that moment. -/
theorem handle_uniqueness (O : Oracle) (st : PState) (hg : GoodState st) :
    (∀ op st' out, step O st op = some (st', out) → GoodState st') ∧
      (∀ lang st' h, step O st (.TShader_create lang) = some (st', Output.ptr h) →
        h ≠ 0 ∧ h ∉ liveHandles st) ∧
      (∀ st' h, step O st .TProgram_create = some (st', Output.ptr h) →
        h ≠ 0 ∧ h ∉ liveHandles st) := by
  obtain ⟨h0, hnd, hb⟩ := hg
  refine ⟨fun op st' out h => (step_frame h).2 ⟨h0, hnd, hb⟩, ?_, ?_⟩
  · intro lang st' hh hstep
    obtain ⟨-, ho⟩ := pair_some_inv hstep
    injection ho with ho'
    subst ho'
    exact ⟨Nat.pos_iff_ne_zero.mp h0, fun hmem => absurd (hb _ hmem).2 (lt_irrefl _)⟩
  · intro st' hh hstep
    obtain ⟨-, ho⟩ := pair_some_inv hstep
    injection ho with ho'
    subst ho'
    exact ⟨Nat.pos_iff_ne_zero.mp h0, fun hmem => absurd (hb _ hmem).2 (lt_irrefl _)⟩

/-- C9 witness at a concrete input: the invariant holds in `pstate1`
and hence creates there return fresh non-null handles and every
operation preserves handle uniqueness. -/
theorem handle_uniqueness_witness :
    GoodState pstate1 ∧
      ((∀ op st' out, step oracleA pstate1 op = some (st', out) → GoodState st') ∧
        (∀ lang st' h, step oracleA pstate1 (.TShader_create lang) = some (st', Output.ptr h) →
          h ≠ 0 ∧ h ∉ liveHandles pstate1) ∧
        (∀ st' h, step oracleA pstate1 .TProgram_create = some (st', Output.ptr h) →
          h ≠ 0 ∧ h ∉ liveHandles pstate1)) :=
  ⟨by decide, handle_uniqueness oracleA pstate1 (by decide)⟩

/-- C10: the source-fragment accessor dereferences both caller-supplied
out-parameters while forwarding (its behaviour is undefined when either
is null); with both non-null it always succeeds, writes the current
fragment-array pointer and fragment count through them, and leaves the
process state — hence the CompilationUnit — unchanged. -/
theorem tShader_getStrings_writes (st : PState) (self : Ptr) (sh : TShader)
    (sOut nOut : Ptr) (h : alistFind st.shaders self = some sh)
    (hs : sOut ≠ 0) (hn : nOut ≠ 0) :
    TShader_getStrings st self sOut nOut
      = some (st, Output.outStrings sh.strings sh.numStrings) := by
  unfold TShader_getStrings
  rw [if_neg (by simp [hs, hn]), readShader_eq_map, h]
  rfl

/-- C10 witness at a concrete input: reading the fragments of the
configured shader of `pstate1` through non-null out-parameters yields
its stored fragment-array pointer and count and leaves the state
unchanged. -/
theorem tShader_getStrings_writes_witness :
    TShader_getStrings pstate1 1 30 31 = some (pstate1, Output.outStrings 5 2) :=
  tShader_getStrings_writes pstate1 1 sh1 30 31 rfl (by decide) (by decide)
